import Mathlib

/-! # The Notion page renderer of `src/index.js`

A shallow embedding of the request handlers of `src/index.js`: the rich-text
formatter `processRichText`, the per-block callback of
`response.results.map(block => ...)`, the html assembly, id validation and
`catch` block of `GET /api/kegiatan/:id`, and the image resolution of
`GET /api/kegiatan`.

Modelling conventions.

* Values read from the upstream JSON keep the types of the upstream schema
  (strings, booleans, arrays of objects, objects), and every property may be
  missing: a property read gives `JsOpt.undefined` (no such key),
  `JsOpt.null` (JSON `null`) or `JsOpt.val v`.
* A property read on `undefined` or `null` throws a `TypeError`; code that can
  throw returns `Except JsError _`.
* JavaScript strings are modelled by `String`, operations on them go through
  the list of characters. Strings are sequences of Unicode scalar values, so
  a string with an unpaired surrogate is outside the model; `jsLength` counts
  UTF-16 code units as `.length` does.
-/

namespace Notion

/-! ## JavaScript values -/

/-- The result of reading a property whose schema type is `α`. -/
inductive JsOpt (α : Type) where
  | undefined : JsOpt α
  | null : JsOpt α
  | val (a : α) : JsOpt α
  deriving DecidableEq

/-- The exceptions the modelled code can raise. -/
inductive JsError where
  | typeError : JsError
  deriving DecidableEq

/-- Truthiness of a string-typed property: only a non-empty string is truthy. -/
def truthyStr : JsOpt String → Bool
  | .val s => decide (s ≠ "")
  | _ => false

/-- Truthiness of a boolean-typed property. -/
def truthyBool : JsOpt Bool → Bool
  | .val b => b
  | _ => false

/-- Truthiness of an object- or array-typed property: every object and every
array (the empty one too) is truthy, `undefined` and `null` are not. -/
def truthyObj {α : Type} : JsOpt α → Bool
  | .val _ => true
  | _ => false

/-- The expression `x || ''` for a string-typed `x`. -/
def orEmpty : JsOpt String → String
  | .val s => s
  | _ => ""

/-- The expression `a || b` for string-typed operands. -/
def jsOr (a b : JsOpt String) : JsOpt String :=
  if truthyStr a then a else b

/-- The element conversion of `Array.prototype.join`: `undefined` and `null`
become the empty string. -/
def joinElem : JsOpt String → String
  | .val s => s
  | _ => ""

/-- The method `Array.prototype.join(sep)` on an array of strings. -/
def jsJoin (sep : String) : List String → String
  | [] => ""
  | [x] => x
  | x :: y :: rest => x ++ sep ++ jsJoin sep (y :: rest)

/-- The number of UTF-16 code units of a character. -/
def utf16Units (c : Char) : Nat :=
  if c.val.toNat < 65536 then 1 else 2

/-- The property `.length` of a string: its number of UTF-16 code units. -/
def jsLength (s : String) : Nat :=
  (s.data.map utf16Units).sum

/-- The method `String.prototype.includes` on lists of characters. -/
def includesChars (sub : List Char) : List Char → Bool
  | [] => sub.isEmpty
  | c :: cs => sub.isPrefixOf (c :: cs) || includesChars sub cs

/-- The method `String.prototype.includes`. -/
def jsIncludes (s sub : String) : Bool :=
  includesChars sub.data s.data

/-- The conversion `ToString` applied to a string-typed property, as done by a
template literal and by `encodeURIComponent`. -/
def toStr : JsOpt String → String
  | .undefined => "undefined"
  | .null => "null"
  | .val s => s

/-! ## Rich text (`processRichText`, lines 125-147) -/

/-- The object `rt.annotations`. -/
structure Annotations where
  bold : JsOpt Bool
  italic : JsOpt Bool
  strikethrough : JsOpt Bool
  underline : JsOpt Bool
  code : JsOpt Bool
  deriving DecidableEq

/-- One rich-text object `rt` of a `rich_text` or `caption` array. -/
structure RichText where
  plain_text : JsOpt String
  href : JsOpt String
  annotations : JsOpt Annotations
  deriving DecidableEq

/-- The anchor of line 133. -/
def wrapLink (href text : String) : String :=
  "<a href=\"" ++ href ++ "\" target=\"_blank\" rel=\"noopener noreferrer\" class=\"text-blue-600 hover:text-blue-800 underline\">" ++ text ++ "</a>"

/-- The five conditional wrappers of lines 138-142, in source order. -/
def applyAnnotations (a : Annotations) (text : String) : String :=
  let text := if truthyBool a.bold then "<strong>" ++ text ++ "</strong>" else text
  let text := if truthyBool a.italic then "<em>" ++ text ++ "</em>" else text
  let text := if truthyBool a.strikethrough then "<del>" ++ text ++ "</del>" else text
  let text := if truthyBool a.underline then "<u>" ++ text ++ "</u>" else text
  let text := if truthyBool a.code then "<code class=\"bg-gray-100 px-1 py-0.5 rounded text-sm\">" ++ text ++ "</code>" else text
  text

/-- The callback `rt => { ... }` of lines 128-146. -/
def formatSpan (rt : RichText) : String :=
  let text := orEmpty rt.plain_text
  let text := if truthyStr rt.href then wrapLink (toStr rt.href) text else text
  let text := match rt.annotations with
    | .val a => applyAnnotations a text
    | _ => text
  text

/-- The function `processRichText` of lines 125-147. An argument that fails the
guard `!richTextArray || !Array.isArray(richTextArray)` is `undefined` or
`null` in this data model. -/
def processRichText (richTextArray : JsOpt (List RichText)) : String :=
  match richTextArray with
  | .val spans => jsJoin "" (spans.map formatSpan)
  | _ => ""

/-- The optional chain `x?.p`: `undefined` when `x` is `undefined` or `null`. -/
def optChain {α β : Type} (x : JsOpt α) (p : α → JsOpt β) : JsOpt β :=
  match x with
  | .val a => p a
  | _ => .undefined

/-- The object `x` of a property read `x.p`: reading a property of `undefined`
or `null` throws a `TypeError`. -/
def getObj {α : Type} (x : JsOpt α) : Except JsError α :=
  match x with
  | .val a => .ok a
  | _ => .error .typeError

/-- The white space and line terminators removed by `String.prototype.trim`. -/
def isJsWhiteSpace (c : Char) : Bool :=
  let n := c.val.toNat
  [9, 10, 11, 12, 13, 32, 160, 5760, 8232, 8233, 8239, 8287, 12288, 65279].contains n
    || (decide (8192 ≤ n) && decide (n ≤ 8202))

/-- The method `String.prototype.trim`. -/
def jsTrim (s : String) : String :=
  ⟨((s.data.dropWhile isJsWhiteSpace).reverse.dropWhile isJsWhiteSpace).reverse⟩

/-! ## `encodeURIComponent` -/

/-- The characters `encodeURIComponent` leaves as they are: ASCII letters and
digits and `- _ . ! ~ * ' ( )`. -/
def isUriUnreserved (c : Char) : Bool :=
  c.isAlphanum || "-_.!~*'()".data.contains c

/-- An upper-case hexadecimal digit. -/
def hexDigit (n : Nat) : Char :=
  "0123456789ABCDEF".data.getD n '0'

/-- The escape `%XX` of one byte. -/
def percentByte (b : Nat) : List Char :=
  ['%', hexDigit (b / 16), hexDigit (b % 16)]

/-- The UTF-8 encoding of a code point. -/
def utf8Bytes (n : Nat) : List Nat :=
  if n < 128 then [n]
  else if n < 2048 then [192 + n / 64, 128 + n % 64]
  else if n < 65536 then [224 + n / 4096, 128 + n / 64 % 64, 128 + n % 64]
  else [240 + n / 262144, 128 + n / 4096 % 64, 128 + n / 64 % 64, 128 + n % 64]

/-- The escapes of a list of bytes, concatenated. -/
def percentBytes : List Nat → List Char
  | [] => []
  | b :: bs => percentByte b ++ percentBytes bs

/-- The encoding of one character by `encodeURIComponent`. -/
def encodeChar (c : Char) : List Char :=
  if isUriUnreserved c then [c] else percentBytes (utf8Bytes c.val.toNat)

/-- The encoding of a list of characters by `encodeURIComponent`. -/
def encodeChars : List Char → List Char
  | [] => []
  | c :: cs => encodeChar c ++ encodeChars cs

/-- The function `encodeURIComponent` on a string. -/
def encodeURIComponent (s : String) : String :=
  ⟨encodeChars s.data⟩

/-! ## The listing endpoint's image resolution (lines 76-87) -/

/-- An object with a `url` property: `imageFile.file`, `block.image.external`. -/
structure UrlObj where
  url : JsOpt String
  deriving DecidableEq

/-- An element of `page.properties.Image.files`. -/
structure FileRef where
  file : JsOpt UrlObj
  external : JsOpt UrlObj
  deriving DecidableEq

/-- The object `page.properties.Image`. -/
structure ImageProperty where
  files : JsOpt (List FileRef)
  deriving DecidableEq

/-- The value of `item.image` after lines 76-87: `undefined` when no branch
assigns it. -/
def itemImage (image : JsOpt ImageProperty) : JsOpt String :=
  match image with
  | .val img =>
    match img.files with
    | .val (imageFile :: _) =>
      match imageFile.file with
      | .val file => .val ("/api/image-proxy?url=" ++ encodeURIComponent (toStr file.url))
      | _ =>
        match imageFile.external with
        | .val ext => ext.url
        | _ => .undefined
    | _ => .undefined
  | _ => .undefined

/-! ## Blocks -/

/-- The object `block.image`. -/
structure ImagePayload where
  external : JsOpt UrlObj
  file : JsOpt UrlObj
  caption : JsOpt (List RichText)
  deriving DecidableEq

/-- The object `block.video`. -/
structure VideoPayload where
  external : JsOpt UrlObj
  file : JsOpt UrlObj
  caption : JsOpt (List RichText)
  deriving DecidableEq

/-- The object `block.file`. -/
structure FilePayload where
  external : JsOpt UrlObj
  file : JsOpt UrlObj
  name : JsOpt String
  deriving DecidableEq

/-- The object `block.embed`. -/
structure EmbedPayload where
  url : JsOpt String
  deriving DecidableEq

/-- The objects `block.paragraph`, `block.heading_1`, `block.heading_2`,
`block.heading_3` and `block.quote`. -/
structure TextPayload where
  rich_text : JsOpt (List RichText)
  deriving DecidableEq

/-- The object `block.code`. -/
structure CodePayload where
  rich_text : JsOpt (List RichText)
  language : JsOpt String
  deriving DecidableEq

/-- The object `block.bookmark`. -/
structure BookmarkPayload where
  url : JsOpt String
  caption : JsOpt (List RichText)
  deriving DecidableEq

/-- One element `block` of `response.results`: its `type` and the payload
properties the renderer reads, each of which may be missing whatever the
`type` says. -/
structure Block where
  type : JsOpt String
  image : JsOpt ImagePayload
  embed : JsOpt EmbedPayload
  paragraph : JsOpt TextPayload
  heading_1 : JsOpt TextPayload
  heading_2 : JsOpt TextPayload
  heading_3 : JsOpt TextPayload
  quote : JsOpt TextPayload
  code : JsOpt CodePayload
  video : JsOpt VideoPayload
  file : JsOpt FilePayload
  bookmark : JsOpt BookmarkPayload
  deriving DecidableEq

/-- The test `type === kind`. -/
def typeIs (block : Block) (kind : String) : Bool :=
  decide (block.type = JsOpt.val kind)

/-! ## Pattern matching on URLs -/

/-- The character class `[a-zA-Z0-9_-]`. -/
def isDriveIdChar (c : Char) : Bool :=
  c.isAlphanum || c == '_' || c == '-'

/-- The first capture group of the leftmost match of
`/\/d\/([a-zA-Z0-9_-]+)/`, if the pattern matches. -/
def matchDriveId : List Char → Option (List Char)
  | [] => none
  | c :: cs =>
    if "/d/".data.isPrefixOf (c :: cs)
        && decide (((c :: cs).drop 3).takeWhile isDriveIdChar ≠ []) then
      some (((c :: cs).drop 3).takeWhile isDriveIdChar)
    else matchDriveId cs

/-- The character class `[^&\n?#]`. -/
def isYoutubeIdChar (c : Char) : Bool :=
  !(c == '&' || c == '\n' || c == '?' || c == '#')

/-- An attempt to match `lit([^&\n?#]+)` at the start of `s`: the capture. -/
def matchYoutubeAlt (lit s : List Char) : Option (List Char) :=
  if lit.isPrefixOf s && decide ((s.drop lit.length).takeWhile isYoutubeIdChar ≠ []) then
    some ((s.drop lit.length).takeWhile isYoutubeIdChar)
  else none

/-- The first capture group of the leftmost match of
`/(?:youtube\.com\/watch\?v=|youtu\.be\/)([^&\n?#]+)/`, if the pattern
matches; at each position the first alternative is tried first. -/
def matchYoutubeId : List Char → Option (List Char)
  | [] => none
  | c :: cs =>
    match matchYoutubeAlt "youtube.com/watch?v=".data (c :: cs) with
    | some videoId => some videoId
    | none =>
      match matchYoutubeAlt "youtu.be/".data (c :: cs) with
      | some videoId => some videoId
      | none => matchYoutubeId cs

/-! ## Template literals of the block renderer -/

/-- The caption element shared by the figures of lines 272, 309 and 322. -/
def figcaption (caption : String) : String :=
  if caption ≠ "" then
    "<figcaption class=\"text-sm text-gray-600 text-center mt-2 italic\">" ++ caption ++ "</figcaption>"
  else ""

/-- The template literal of lines 157-162. -/
def imageFirstTemplate (src caption : String) : String :=
  "\n    <div class=\"my-6\">\n      <img src=\""
    ++ src
    ++ "\" alt=\""
    ++ caption
    ++ "\" class=\"rounded-xl mx-auto\" />\n      "
    ++ (if caption ≠ "" then "<p class=\"text-sm text-center text-gray-500 mt-2\">" ++ caption ++ "</p>" else "")
    ++ "\n    </div>\n  "

/-- The template literal of lines 177-186. -/
def embedDriveTemplate (embedUrl : String) : String :=
  "\n        <div class=\"my-6 aspect-video\">\n          <iframe src=\""
    ++ embedUrl
    ++ "\" \n                  class=\"w-full h-full rounded-lg shadow\" \n                  frameborder=\"0\" \n                  allowfullscreen \n                  loading=\"lazy\">\n          </iframe>\n        </div>\n      "

/-- The template literal of lines 191-200. -/
def embedGenericTemplate (url : String) : String :=
  "\n    <div class=\"my-6 aspect-video\">\n      <iframe src=\""
    ++ url
    ++ "\" \n              class=\"w-full h-full rounded-lg shadow\" \n              frameborder=\"0\" \n              allowfullscreen \n              loading=\"lazy\">\n      </iframe>\n    </div>\n  "

/-- The template literal of lines 258-274. -/
def imageSecondTemplate (finalImageUrl caption : String) : String :=
  "\n            <figure class=\"my-6\">\n              <img src=\""
    ++ finalImageUrl
    ++ "\" \n                   alt=\""
    ++ (if caption ≠ "" then caption else "Gambar")
    ++ "\" \n                   class=\"w-full rounded-lg shadow-md\" \n                   loading=\"lazy\" \n                   onerror=\"this.style.display='none'; this.nextElementSibling.style.display='block';\" />\n              <div style=\"display:none;\" class=\"bg-gray-100 border-2 border-dashed border-gray-300 rounded-lg p-8 text-center text-gray-500\">\n                <svg class=\"w-12 h-12 mx-auto mb-4\" fill=\"none\" stroke=\"currentColor\" viewBox=\"0 0 24 24\">\n                  <path stroke-linecap=\"round\" stroke-linejoin=\"round\" stroke-width=\"2\" d=\"M4 16l4.586-4.586a2 2 0 012.828 0L16 16m-2-2l1.586-1.586a2 2 0 012.828 0L20 14m-6-6h.01M6 20h12a2 2 0 002-2V6a2 2 0 00-2-2H6a2 2 0 00-2 2v12a2 2 0 002 2z\"></path>\n                </svg>\n                <p>Gambar tidak dapat dimuat</p>\n                "
    ++ (if caption ≠ "" then "<p class=\"text-sm mt-2\">" ++ caption ++ "</p>" else "")
    ++ "\n              </div>\n              "
    ++ figcaption caption
    ++ "\n            </figure>\n          "

/-- The template literal of lines 301-311. -/
def videoYoutubeTemplate (videoId caption : String) : String :=
  "\n                <figure class=\"my-6\">\n                  <div class=\"relative pb-[56.25%] h-0 overflow-hidden rounded-lg\">\n                    <iframe src=\"https://www.youtube.com/embed/"
    ++ videoId
    ++ "\" \n                            class=\"absolute top-0 left-0 w-full h-full\" \n                            frameborder=\"0\" \n                            allowfullscreen></iframe>\n                  </div>\n                  "
    ++ figcaption caption
    ++ "\n                </figure>\n              "

/-- The template literal of lines 316-324. -/
def videoNativeTemplate (videoUrl caption : String) : String :=
  "\n            <figure class=\"my-6\">\n              <video controls class=\"w-full rounded-lg shadow-md\">\n                <source src=\""
    ++ videoUrl
    ++ "\" type=\"video/mp4\">\n                Browser Anda tidak mendukung video.\n              </video>\n              "
    ++ figcaption caption
    ++ "\n            </figure>\n          "

/-- The template literal of lines 342-352. -/
def fileTemplate (fileUrl fileName : String) : String :=
  "\n            <div class=\"my-4 p-4 border border-gray-300 rounded-lg bg-gray-50\">\n              <a href=\""
    ++ fileUrl
    ++ "\" target=\"_blank\" rel=\"noopener noreferrer\" \n                 class=\"flex items-center text-blue-600 hover:text-blue-800\">\n                <svg class=\"w-5 h-5 mr-2\" fill=\"currentColor\" viewBox=\"0 0 20 20\">\n                  <path d=\"M4 4a2 2 0 00-2 2v8a2 2 0 002 2h12a2 2 0 002-2V6a2 2 0 00-2-2H4zm2 6a1 1 0 011-1h6a1 1 0 110 2H7a1 1 0 01-1-1zm1 3a1 1 0 100 2h6a1 1 0 100-2H7z\"/>\n                </svg>\n                \u00f0\u0178\u201c\u017d "
    ++ fileName
    ++ "\n              </a>\n            </div>\n          "

/-- The template literal of lines 362-369. -/
def bookmarkTemplate (url caption : String) : String :=
  "\n            <div class=\"my-4 p-4 border border-gray-300 rounded-lg bg-blue-50\">\n              <a href=\""
    ++ url
    ++ "\" target=\"_blank\" rel=\"noopener noreferrer\" \n                 class=\"text-blue-600 hover:text-blue-800 font-medium\">\n                \u00f0\u0178\u201d\u2014 "
    ++ (if caption ≠ "" then caption else url)
    ++ "\n              </a>\n            </div>\n          "

/-! ## The block renderer (lines 149-381) -/

/-- The first `image` branch, lines 151-163. -/
def renderImageFirst (block : Block) : Except JsError String := do
  let image ← getObj block.image
  let src := jsOr (optChain image.external (·.url)) (optChain image.file (·.url))
  let captionArray ← getObj image.caption
  let caption := jsJoin " " (captionArray.map (fun cap => joinElem cap.plain_text))
  return imageFirstTemplate (toStr src) caption

/-- The body of the `embed` branch, lines 167-200, for the URL `url`. -/
def renderEmbedUrl (url : String) : String :=
  if jsIncludes url "drive.google.com" then
    match matchDriveId url.data with
    | some fileId =>
      embedDriveTemplate ("https://drive.google.com/file/d/" ++ String.mk fileId ++ "/preview")
    | none => embedGenericTemplate url
  else embedGenericTemplate url

/-- The `embed` branch, lines 166-201, entered when `block.embed?.url` is
truthy. -/
def renderEmbed (block : Block) : Except JsError String := do
  let embed ← getObj block.embed
  return renderEmbedUrl (toStr embed.url)

/-- The body shared by the `paragraph`, `heading_1`, `heading_2`, `heading_3`
and `quote` branches, lines 204-227: the formatted text between the two tags,
or nothing when the formatted text is empty. -/
def renderText (openTag closeTag : String) (payload : JsOpt TextPayload) :
    Except JsError String := do
  let p ← getObj payload
  let text := processRichText p.rich_text
  return if text ≠ "" then openTag ++ text ++ closeTag else ""

/-- The `code` branch, lines 229-233, entered when `block.code?.rich_text` is
truthy. -/
def renderCode (block : Block) : Except JsError String := do
  let code ← getObj block.code
  let richText ← getObj code.rich_text
  let text := jsJoin "" (richText.map (fun rt => orEmpty rt.plain_text))
  let language := orEmpty code.language
  return if text ≠ "" then
    "<pre class=\"bg-gray-900 text-gray-100 p-4 rounded-lg overflow-x-auto my-4\"><code class=\"language-"
      ++ language ++ "\">" ++ text ++ "</code></pre>"
  else ""

/-- The URL chosen by lines 240-244, 284-288 and (for the URL) 333-339: the
hosted `file.url` when `file` is there, else the `external.url` when
`external` is there, else the initial `''`. -/
def pickUrl (file external : JsOpt UrlObj) : JsOpt String :=
  match file with
  | .val f => f.url
  | _ =>
    match external with
    | .val e => e.url
    | _ => .val ""

/-- The caption of lines 246-249 and 290-293: formatted when the array is
there and not empty, else the initial `''`. -/
def captionHtml (caption : JsOpt (List RichText)) : String :=
  match caption with
  | .val (c :: cs) => processRichText (.val (c :: cs))
  | _ => ""

/-- The second `image` branch, lines 235-277. -/
def renderImageSecond (block : Block) : Except JsError String := do
  let image ← getObj block.image
  let imageUrl := pickUrl image.file image.external
  let caption := captionHtml image.caption
  if truthyStr imageUrl then
    let finalImageUrl :=
      if truthyObj image.file then "/api/image-proxy?url=" ++ encodeURIComponent (toStr imageUrl)
      else toStr imageUrl
    return imageSecondTemplate finalImageUrl caption
  else return ""

/-- The body of the `video` branch for a truthy `videoUrl`, lines 296-324. -/
def renderVideoUrl (videoUrl caption : String) : String :=
  if jsIncludes videoUrl "youtube.com" || jsIncludes videoUrl "youtu.be" then
    match matchYoutubeId videoUrl.data with
    | some videoId => videoYoutubeTemplate (String.mk videoId) caption
    | none => videoNativeTemplate videoUrl caption
  else videoNativeTemplate videoUrl caption

/-- The `video` branch, lines 279-327. -/
def renderVideo (block : Block) : Except JsError String := do
  let video ← getObj block.video
  let videoUrl := pickUrl video.file video.external
  let caption := captionHtml video.caption
  if truthyStr videoUrl then return renderVideoUrl (toStr videoUrl) caption
  else return ""

/-- The display name chosen by lines 331-339. -/
def pickFileName (file : FilePayload) : String :=
  match file.file with
  | .val _ => if truthyStr file.name then toStr file.name else "File"
  | _ =>
    match file.external with
    | .val _ => if truthyStr file.name then toStr file.name else "File External"
    | _ => "File"

/-- The `file` branch, lines 329-355. -/
def renderFile (block : Block) : Except JsError String := do
  let file ← getObj block.file
  let fileUrl := pickUrl file.file file.external
  let fileName := pickFileName file
  if truthyStr fileUrl then return fileTemplate (toStr fileUrl) fileName
  else return ""

/-- The `bookmark` branch, lines 357-372. -/
def renderBookmark (block : Block) : String :=
  let url := optChain block.bookmark (·.url)
  let caption :=
    if truthyObj (optChain block.bookmark (·.caption)) then
      processRichText (optChain block.bookmark (·.caption))
    else ""
  if truthyStr url then bookmarkTemplate (toStr url) caption else ""

/-- The callback `block => { ... }` of lines 149-381: the branches in source
order, the first whose test holds decides. -/
def renderBlock (block : Block) : Except JsError String :=
  if typeIs block "image" then renderImageFirst block
  else if typeIs block "embed" && truthyStr (optChain block.embed (·.url)) then
    renderEmbed block
  else if typeIs block "paragraph" && truthyObj (optChain block.paragraph (·.rich_text)) then
    renderText "<p class=\"mb-4\">" "</p>" block.paragraph
  else if typeIs block "heading_1" && truthyObj (optChain block.heading_1 (·.rich_text)) then
    renderText "<h1 class=\"text-3xl font-bold mb-4 mt-6\">" "</h1>" block.heading_1
  else if typeIs block "heading_2" && truthyObj (optChain block.heading_2 (·.rich_text)) then
    renderText "<h2 class=\"text-2xl font-semibold mb-3 mt-5\">" "</h2>" block.heading_2
  else if typeIs block "heading_3" && truthyObj (optChain block.heading_3 (·.rich_text)) then
    renderText "<h3 class=\"text-xl font-medium mb-2 mt-4\">" "</h3>" block.heading_3
  else if typeIs block "quote" && truthyObj (optChain block.quote (·.rich_text)) then
    renderText "<blockquote class=\"border-l-4 border-gray-300 pl-4 italic my-4 text-gray-700\">"
      "</blockquote>" block.quote
  else if typeIs block "code" && truthyObj (optChain block.code (·.rich_text)) then
    renderCode block
  else if typeIs block "image" then renderImageSecond block
  else if typeIs block "video" then renderVideo block
  else if typeIs block "file" then renderFile block
  else if typeIs block "bookmark" then .ok (renderBookmark block)
  else if typeIs block "divider" then .ok "<hr class=\"my-6 border-gray-300\">"
  else .ok ""

/-! ## The html assembly (lines 149-392) -/

/-- The method `Array.prototype.map` with a callback that may throw: the
elements are visited in order and the first exception ends the loop. -/
def mapBlocks (f : Block → Except JsError String) : List Block → Except JsError (List String)
  | [] => .ok []
  | block :: rest =>
    match f block with
    | .error e => .error e
    | .ok content =>
      match mapBlocks f rest with
      | .error e => .error e
      | .ok contents => .ok (content :: contents)

/-- The fragment sent when no block produced content, line 387. -/
def placeholderHtml : String :=
  "<p class=\"text-gray-500 italic\">Tidak ada konten yang dapat ditampilkan.</p>"

/-- The `html` field of the successful response of `GET /api/kegiatan/:id`,
lines 149-392, for the blocks `response.results`; an exception of a block's
rendering leaves the `try` block. -/
def assembleHtml (blocks : List Block) : Except JsError String :=
  match mapBlocks renderBlock blocks with
  | .error e => .error e
  | .ok contents =>
    let html := jsJoin "" (contents.filter (fun content => decide (jsLength content > 0)))
    if jsTrim html = "" then .ok placeholderHtml else .ok html

/-! ## The page-detail handler (`GET /api/kegiatan/:id`, lines 104-418) -/

/-- A value caught by the `catch` block of lines 394-417, with the two
properties the block reads: `error.code` and `error.message`. -/
structure Thrown where
  code : JsOpt String
  message : JsOpt String
  deriving DecidableEq

/-- The object passed to `res.json`; a property that is `undefined` is left
out of the JSON that is sent. -/
structure ResBody where
  error : JsOpt String
  pageId : JsOpt String
  details : JsOpt String
  html : JsOpt String
  deriving DecidableEq

/-- A response: the HTTP status and the body. -/
structure Response where
  status : Nat
  body : ResBody
  deriving DecidableEq

/-- What one request does: the response it sends and the `block_id`s of the
calls of `notion.blocks.children.list` it makes, in order. -/
structure Outcome where
  response : Response
  upstreamCalls : List String
  deriving DecidableEq

/-- The exception object of a `TypeError` raised while rendering: it has no
`code`, and its `message` is the text `message` the engine gives it. -/
def thrownOfJsError (message : String) : JsError → Thrown
  | .typeError => { code := .undefined, message := .val message }

/-- The `catch` block of lines 394-417. -/
def catchBlock (pageId : JsOpt String) (error : Thrown) : Response :=
  if error.code = .val "object_not_found" then
    { status := 404
      body := { error := .val "Halaman tidak ditemukan", pageId := pageId,
                details := .undefined, html := .undefined } }
  else if error.code = .val "unauthorized" then
    { status := 401
      body := { error := .val "Token Notion tidak valid atau tidak memiliki akses ke halaman ini",
                pageId := pageId, details := .undefined, html := .undefined } }
  else
    { status := 500
      body := { error := .val "Gagal mengambil detail dari Notion", details := error.message,
                pageId := pageId, html := .undefined } }

/-- The test `!pageId || pageId.length < 32` of line 111. -/
def invalidPageId (pageId : JsOpt String) : Bool :=
  !truthyStr pageId || decide (jsLength (toStr pageId) < 32)

/-- The handler of `GET /api/kegiatan/:id`, lines 104-418. The upstream call
`notion.blocks.children.list({ block_id })` is the parameter `list`: it gives
the blocks `response.results` or throws; `typeErrorMessage` is the message of
a `TypeError` raised by the rendering. -/
def pageDetail (typeErrorMessage : String) (list : String → Except Thrown (List Block))
    (pageId : JsOpt String) : Outcome :=
  if invalidPageId pageId then
    { response :=
        { status := 400
          body := { error := .val "ID halaman tidak valid", pageId := pageId,
                    details := .undefined, html := .undefined } }
      upstreamCalls := [] }
  else
    match list (toStr pageId) with
    | .error error =>
      { response := catchBlock pageId error, upstreamCalls := [toStr pageId] }
    | .ok results =>
      match assembleHtml results with
      | .error e =>
        { response := catchBlock pageId (thrownOfJsError typeErrorMessage e)
          upstreamCalls := [toStr pageId] }
      | .ok html =>
        { response :=
            { status := 200
              body := { html := .val html, error := .undefined, pageId := .undefined,
                        details := .undefined } }
          upstreamCalls := [toStr pageId] }

/-! ## Reference definitions that follow the specification's words -/
/-- A span of the specification's data model as the upstream sends it: plain
text `t`, a link that is a string or `null`, and the five annotation flags. -/
def mkSpan (t : String) (link : Option String)
    (bold italic strikethrough underline code : Bool) : RichText :=
  { plain_text := .val t
    href := match link with
      | some h => .val h
      | none => .null
    annotations := .val
      { bold := .val bold, italic := .val italic, strikethrough := .val strikethrough,
        underline := .val underline, code := .val code } }

/-- The reference definition of the specification, section 4.1 steps 1-3
without the escaping of step 1: start from `t`, wrap it in the anchor when a
link is present, then wrap outward in the order bold, italic, strikethrough,
underline, code, each only if its flag is true. -/
def specFormatSpan (t : String) (link : Option String)
    (bold italic strikethrough underline code : Bool) : String :=
  let s := match link with
    | some h =>
      "<a href=\"" ++ h ++ "\" target=\"_blank\" rel=\"noopener noreferrer\" class=\"text-blue-600 hover:text-blue-800 underline\">" ++ t ++ "</a>"
    | none => t
  let s := if bold then "<strong>" ++ s ++ "</strong>" else s
  let s := if italic then "<em>" ++ s ++ "</em>" else s
  let s := if strikethrough then "<del>" ++ s ++ "</del>" else s
  let s := if underline then "<u>" ++ s ++ "</u>" else s
  if code then "<code class=\"bg-gray-100 px-1 py-0.5 rounded text-sm\">" ++ s ++ "</code>" else s

/-- The asset reference `Hosted(internalUrl)` of the specification, as an
element of `page.properties.Image.files`. -/
def hostedRef (internalUrl : String) : FileRef :=
  { file := .val { url := .val internalUrl }, external := .undefined }

/-- The asset reference `External(url)` of the specification, as an element
of `page.properties.Image.files`. -/
def externalRef (url : String) : FileRef :=
  { file := .undefined, external := .val { url := .val url } }

/-- The thirteen URI reserved characters that `encodeURIComponent` escapes:
`: / ? # [ ] @ $ & + , ; =`. -/
def escapedReserved : List Char :=
  ":/?#[]@$&+,;=".data

/-- The five URI reserved characters that `encodeURIComponent` keeps:
`! ' ( ) *`. -/
def keptReserved : List Char :=
  "!'()*".data

/-- The block kinds the renderer has a branch for. -/
def recognizedKinds : List String :=
  ["image", "embed", "paragraph", "heading_1", "heading_2", "heading_3", "quote", "code",
    "video", "file", "bookmark", "divider"]

/-- A block of the given `type` with every payload property missing. -/
def bareBlock (kind : String) : Block :=
  { type := .val kind, image := .undefined, embed := .undefined, paragraph := .undefined,
    heading_1 := .undefined, heading_2 := .undefined, heading_3 := .undefined,
    quote := .undefined, code := .undefined, video := .undefined, file := .undefined,
    bookmark := .undefined }

/-- A file block whose source is `Hosted`: `block.file.file.url` is `u`. -/
def hostedFileBlock (u : String) (external : JsOpt UrlObj) (name : JsOpt String) : Block :=
  { bareBlock "file" with file := .val { external := external, file := .val { url := .val u }, name := name } }

/-- A rendering with visible markup: it holds a `<`, has at least eleven
characters, and its first eleven characters are not those of the placeholder
fragment. -/
def Visible (s : String) : Prop :=
  '<' ∈ s.data ∧ 11 ≤ s.data.length ∧ s.data.take 11 ≠ placeholderHtml.data.take 11

/-- The decidable condition on the literal a template starts with that makes
every instance of the template `Visible`. -/
def visibleLit (lit : String) : Bool :=
  decide ('<' ∈ lit.data) && decide (11 ≤ lit.data.length)
    && decide (lit.data.take 11 ≠ placeholderHtml.data.take 11)

/-- The block renderer of lines 149-381 with the second `image` branch, lines
235-277, deleted: every other branch is kept, in source order. -/
def renderBlockWithoutSecondImage (block : Block) : Except JsError String :=
  if typeIs block "image" then renderImageFirst block
  else if typeIs block "embed" && truthyStr (optChain block.embed (·.url)) then
    renderEmbed block
  else if typeIs block "paragraph" && truthyObj (optChain block.paragraph (·.rich_text)) then
    renderText "<p class=\"mb-4\">" "</p>" block.paragraph
  else if typeIs block "heading_1" && truthyObj (optChain block.heading_1 (·.rich_text)) then
    renderText "<h1 class=\"text-3xl font-bold mb-4 mt-6\">" "</h1>" block.heading_1
  else if typeIs block "heading_2" && truthyObj (optChain block.heading_2 (·.rich_text)) then
    renderText "<h2 class=\"text-2xl font-semibold mb-3 mt-5\">" "</h2>" block.heading_2
  else if typeIs block "heading_3" && truthyObj (optChain block.heading_3 (·.rich_text)) then
    renderText "<h3 class=\"text-xl font-medium mb-2 mt-4\">" "</h3>" block.heading_3
  else if typeIs block "quote" && truthyObj (optChain block.quote (·.rich_text)) then
    renderText "<blockquote class=\"border-l-4 border-gray-300 pl-4 italic my-4 text-gray-700\">"
      "</blockquote>" block.quote
  else if typeIs block "code" && truthyObj (optChain block.code (·.rich_text)) then
    renderCode block
  else if typeIs block "video" then renderVideo block
  else if typeIs block "file" then renderFile block
  else if typeIs block "bookmark" then .ok (renderBookmark block)
  else if typeIs block "divider" then .ok "<hr class=\"my-6 border-gray-300\">"
  else .ok ""

/-- The text of a URL after its first `://`; empty when there is none. -/
def afterScheme : List Char → List Char
  | [] => []
  | c :: cs => if "://".data.isPrefixOf (c :: cs) then cs.drop 2 else afterScheme cs

/-- The host of a URL in the words of claim C12: the text between `://` and
the next `/`, `?` or `#`. -/
def urlHost (url : String) : String :=
  ⟨(afterScheme url.data).takeWhile (fun c => !(c == '/' || c == '?' || c == '#'))⟩

/-- An embed block with the URL `url`. -/
def embedBlock (url : String) : Block :=
  { bareBlock "embed" with embed := .val { url := .val url } }

/-- An image block with the given payload. -/
def imageBlock (image : ImagePayload) : Block :=
  { bareBlock "image" with image := .val image }

/-- A video block with the given payload. -/
def videoBlock (video : VideoPayload) : Block :=
  { bareBlock "video" with video := .val video }

/-- A file block with the given payload. -/
def fileBlock (file : FilePayload) : Block :=
  { bareBlock "file" with file := .val file }

/-- A code block with the given spans and language. -/
def codeBlock (richText : List RichText) (language : JsOpt String) : Block :=
  { bareBlock "code" with code := .val { rich_text := .val richText, language := language } }

/-- A `/d/` followed by an id character starts at the end of `pre` in `s`:
`s` is `pre`, then `/d/`, then the character `c` of the class
`[a-zA-Z0-9_-]`, then `q`. -/
def DriveMatchAt (s pre : List Char) (c : Char) (q : List Char) : Prop :=
  isDriveIdChar c = true ∧ s = pre ++ "/d/".data ++ c :: q

/-! # Theorems -/

set_option maxRecDepth 16000

/-! ## Lemmas on strings and joins -/

theorem jsJoin_empty_cons (x : String) (xs : List String) :
    jsJoin "" (x :: xs) = x ++ jsJoin "" xs := by
  cases xs with
  | nil => simp [jsJoin]
  | cons y ys => simp [jsJoin]

theorem jsJoin_empty_append (xs ys : List String) :
    jsJoin "" (xs ++ ys) = jsJoin "" xs ++ jsJoin "" ys := by
  induction xs with
  | nil => simp [jsJoin]
  | cons x xs ih =>
    rw [List.cons_append, jsJoin_empty_cons, jsJoin_empty_cons, ih, String.append_assoc]

theorem jsLength_append (a b : String) : jsLength (a ++ b) = jsLength a + jsLength b := by
  simp [jsLength, String.data_append, List.map_append, List.sum_append]

theorem jsLength_eq_zero_iff (s : String) : jsLength s = 0 ↔ s = "" := by
  constructor
  · intro h
    apply String.ext
    cases hs : s.data with
    | nil => rfl
    | cons c cs =>
      simp [jsLength, hs, utf16Units] at h
      split at h <;> omega
  · intro h
    subst h
    rfl

/-- Wrapping a string between two others does not shorten it, for every
additive measure of length. -/
theorem measure_le_wrap (f : String → Nat) (hf : ∀ a b, f (a ++ b) = f a + f b)
    (c : Bool) (pre post x : String) :
    f x ≤ f (if c = true then pre ++ x ++ post else x) := by
  cases c with
  | false => simp
  | true =>
    simp only [if_true, hf]
    omega

theorem measure_le_applyAnnotations (f : String → Nat) (hf : ∀ a b, f (a ++ b) = f a + f b)
    (a : Annotations) (x : String) : f x ≤ f (applyAnnotations a x) := by
  unfold applyAnnotations
  exact Nat.le_trans (measure_le_wrap f hf _ _ _ _)
    (Nat.le_trans (measure_le_wrap f hf _ _ _ _)
      (Nat.le_trans (measure_le_wrap f hf _ _ _ _)
        (Nat.le_trans (measure_le_wrap f hf _ _ _ _) (measure_le_wrap f hf _ _ _ _))))

theorem measure_le_formatSpan (f : String → Nat) (hf : ∀ a b, f (a ++ b) = f a + f b)
    (rt : RichText) : f (orEmpty rt.plain_text) ≤ f (formatSpan rt) := by
  have h1 : f (orEmpty rt.plain_text) ≤
      f (if truthyStr rt.href = true then wrapLink (toStr rt.href) (orEmpty rt.plain_text)
        else orEmpty rt.plain_text) := by
    split
    · simp only [wrapLink, hf]
      omega
    · exact Nat.le_refl _
  unfold formatSpan
  cases hA : rt.annotations with
  | undefined => simpa using h1
  | null => simpa using h1
  | val a => exact Nat.le_trans h1 (measure_le_applyAnnotations f hf a _)

theorem measure_le_processRichText (f : String → Nat) (hf : ∀ a b, f (a ++ b) = f a + f b)
    (spans : List RichText) :
    ((spans.map (fun rt => f (orEmpty rt.plain_text))).sum) ≤ f (processRichText (.val spans)) := by
  induction spans with
  | nil => simp [processRichText, jsJoin]
  | cons rt rest ih =>
    simp only [processRichText, List.map_cons, List.sum_cons, jsJoin_empty_cons, hf] at ih ⊢
    exact Nat.add_le_add (measure_le_formatSpan f hf rt) ih

/-- Wrapping keeps a string that sits between a head and a tail between a
head and a tail. -/
theorem between_wrap (c : Bool) (pre post t x : String)
    (h : ∃ p q, x = p ++ t ++ q) :
    ∃ p q, (if c = true then pre ++ x ++ post else x) = p ++ t ++ q := by
  obtain ⟨p, q, rfl⟩ := h
  cases c with
  | false => exact ⟨p, q, by simp⟩
  | true => exact ⟨pre ++ p, q ++ post, by simp [String.append_assoc]⟩

theorem between_formatSpan (rt : RichText) :
    ∃ p q, formatSpan rt = p ++ orEmpty rt.plain_text ++ q := by
  have h0 : ∃ p q, orEmpty rt.plain_text = p ++ orEmpty rt.plain_text ++ q :=
    ⟨"", "", by simp⟩
  have h1 : ∃ p q, (if truthyStr rt.href = true then
      wrapLink (toStr rt.href) (orEmpty rt.plain_text) else orEmpty rt.plain_text)
        = p ++ orEmpty rt.plain_text ++ q := by
    split
    · exact ⟨_, _, rfl⟩
    · exact h0
  unfold formatSpan
  cases hA : rt.annotations with
  | undefined => simpa using h1
  | null => simpa using h1
  | val a =>
    simp only [applyAnnotations]
    exact between_wrap _ _ _ _ _ (between_wrap _ _ _ _ _ (between_wrap _ _ _ _ _
      (between_wrap _ _ _ _ _ (between_wrap _ _ _ _ _ h1))))

/-! ## C3-C6: the rich-text formatter -/

/-- C3: for every span with plain text `t`, an optional link (a URL, so not
the empty string when present) and five annotation flags, the formatter's
output for that span is the reference definition `specFormatSpan`: the anchor
around `t` when a link is present, then the wrappers bold, italic,
strikethrough, underline, code outward, each only if its flag is true. With
all five flags and no link the output is
`<code ...><u><del><em><strong>t</strong></em></del></u></code>`, and bold
with italic gives `<em><strong>t</strong></em>`. -/
theorem C3_formatter_matches_reference (t : String) (link : Option String)
    (bold italic strikethrough underline code : Bool)
    (hlink : ∀ h, link = some h → h ≠ "") :
    processRichText (.val [mkSpan t link bold italic strikethrough underline code])
        = specFormatSpan t link bold italic strikethrough underline code
      ∧ processRichText (.val [mkSpan t none true true true true true])
        = "<code class=\"bg-gray-100 px-1 py-0.5 rounded text-sm\"><u><del><em><strong>" ++ t
            ++ "</strong></em></del></u></code>"
      ∧ processRichText (.val [mkSpan t none true true false false false])
        = "<em><strong>" ++ t ++ "</strong></em>" := by
  refine ⟨?_, ?_, ?_⟩
  · cases link with
    | none =>
      simp [processRichText, jsJoin, formatSpan, mkSpan, specFormatSpan, applyAnnotations,
        truthyStr, truthyBool, orEmpty]
    | some h =>
      have hh : h ≠ "" := hlink h rfl
      simp [processRichText, jsJoin, formatSpan, mkSpan, specFormatSpan, applyAnnotations,
        truthyStr, truthyBool, orEmpty, toStr, wrapLink, hh]
  · apply String.ext
    simp [processRichText, jsJoin, formatSpan, mkSpan, applyAnnotations, truthyStr, truthyBool,
      orEmpty, String.data_append]
  · apply String.ext
    simp [processRichText, jsJoin, formatSpan, mkSpan, applyAnnotations, truthyStr, truthyBool,
      orEmpty, String.data_append]

/-- Witness of C3: the span `t` linked to `https://a.b` with all five flags. -/
theorem C3_formatter_matches_reference_witness :
    processRichText (.val [mkSpan "t" (some "https://a.b") true true true true true])
      = "<code class=\"bg-gray-100 px-1 py-0.5 rounded text-sm\"><u><del><em><strong><a href=\"https://a.b\" target=\"_blank\" rel=\"noopener noreferrer\" class=\"text-blue-600 hover:text-blue-800 underline\">t</a></strong></em></del></u></code>" :=
  (C3_formatter_matches_reference "t" (some "https://a.b") true true true true true
    (by intro h hh; cases hh; decide)).1.trans rfl

/-- C4: for every sequence of spans the length of the formatter's output is at
least the sum of the lengths of the spans' plain texts, both in UTF-16 code
units (the `.length` of JavaScript) and in characters. -/
theorem C4_output_length_ge_plain_lengths (spans : List RichText) :
    (spans.map (fun rt => jsLength (orEmpty rt.plain_text))).sum
        ≤ jsLength (processRichText (.val spans))
      ∧ (spans.map (fun rt => (orEmpty rt.plain_text).length)).sum
        ≤ (processRichText (.val spans)).length :=
  ⟨measure_le_processRichText jsLength jsLength_append spans,
    measure_le_processRichText String.length (fun a b => String.length_append a b) spans⟩

/-- C5, refuted as stated: the span with plain text `<`, no link and no
annotation renders as `<` itself, not as an entity. -/
theorem C5_reserved_character_rendered_raw :
    processRichText (.val [mkSpan "<" none false false false false false]) = "<" := by
  decide

/-- C5, amended: the formatter starts from the plain text unchanged, with no
HTML-entity escaping. Every span's output is its plain text between a head and
a tail of markup, and a span with no link and no annotation renders as its
plain text exactly, reserved characters included. -/
theorem C5_plain_text_kept_verbatim :
    (∀ rt : RichText, ∃ p q, formatSpan rt = p ++ orEmpty rt.plain_text ++ q)
      ∧ (∀ t : String,
          processRichText (.val [mkSpan t none false false false false false]) = t)
      ∧ (∀ t : String,
          processRichText (.val [RichText.mk (.val t) .null .undefined]) = t) := by
  refine ⟨between_formatSpan, ?_, ?_⟩
  · intro t
    simp [processRichText, jsJoin, formatSpan, mkSpan, applyAnnotations, truthyStr, truthyBool,
      orEmpty]
  · intro t
    simp [processRichText, jsJoin, formatSpan, truthyStr, orEmpty]

/-- C6: the formatter is a monoid homomorphism from span sequences to strings.
It is a total function; on the empty sequence and on an absent argument
(`undefined` or `null`, the arguments that fail the array guard) it gives the
empty string, and on a concatenation of two sequences it gives the
concatenation of the two outputs, with no separator. -/
theorem C6_formatter_monoid_hom :
    processRichText (.val []) = ""
      ∧ processRichText .undefined = ""
      ∧ processRichText .null = ""
      ∧ (∀ xs ys : List RichText,
          processRichText (.val (xs ++ ys))
            = processRichText (.val xs) ++ processRichText (.val ys))
      ∧ (∀ rt : RichText, processRichText (.val [rt]) = formatSpan rt) := by
  refine ⟨rfl, rfl, rfl, ?_, ?_⟩
  · intro xs ys
    simp [processRichText, List.map_append, jsJoin_empty_append]
  · intro rt
    rfl

/-! ## C7-C8: asset URL resolution and `encodeURIComponent` -/

theorem hexDigit_mem (n : Nat) : hexDigit n ∈ "0123456789ABCDEF".data := by
  unfold hexDigit
  by_cases h : n < 16
  · have : ∀ m, m < 16 → "0123456789ABCDEF".data.getD m '0' ∈ "0123456789ABCDEF".data := by
      decide
    exact this n h
  · have h16 : "0123456789ABCDEF".data.length ≤ n := by
      have : "0123456789ABCDEF".data.length = 16 := by decide
      omega
    rw [List.getD_eq_default _ _ h16]
    decide

theorem hexDigit_not_escaped (n : Nat) : hexDigit n ∉ escapedReserved := by
  have h : ∀ c ∈ "0123456789ABCDEF".data, c ∉ escapedReserved := by decide
  exact h _ (hexDigit_mem n)

theorem unreserved_not_escaped (c : Char) (h : isUriUnreserved c = true) :
    c ∉ escapedReserved := by
  have hr : ∀ r ∈ escapedReserved, isUriUnreserved r = false := by decide
  intro hc
  have := hr c hc
  rw [h] at this
  cases this

theorem percentBytes_not_escaped (bs : List Nat) :
    ∀ c ∈ percentBytes bs, c ∉ escapedReserved := by
  induction bs with
  | nil => intro c hc; cases hc
  | cons b bs ih =>
    intro c hc
    simp only [percentBytes, percentByte, List.cons_append, List.nil_append,
      List.mem_cons] at hc
    rcases hc with rfl | rfl | rfl | hc
    · decide
    · exact hexDigit_not_escaped _
    · exact hexDigit_not_escaped _
    · exact ih c hc

theorem encodeChars_not_escaped (cs : List Char) :
    ∀ c ∈ encodeChars cs, c ∉ escapedReserved := by
  induction cs with
  | nil => intro c hc; cases hc
  | cons x xs ih =>
    intro c hc
    simp only [encodeChars, List.mem_append] at hc
    rcases hc with hc | hc
    · unfold encodeChar at hc
      split at hc
      · rename_i hx
        simp only [List.mem_singleton] at hc
        subst hc
        exact unreserved_not_escaped _ hx
      · exact percentBytes_not_escaped _ c hc
    · exact ih c hc

theorem encodeChars_append (xs ys : List Char) :
    encodeChars (xs ++ ys) = encodeChars xs ++ encodeChars ys := by
  induction xs with
  | nil => rfl
  | cons x xs ih => simp [encodeChars, ih]

/-- C7: asset URL resolution of the listing endpoint. For an `External(url)`
first file the image is `url` unchanged, for a `Hosted(internalUrl)` first file
it is `/api/image-proxy?url=` followed by `encodeURIComponent(internalUrl)`;
`External("https://x/y.png")` resolves to `https://x/y.png` and
`Hosted("https://internal/secret?x=1")` to
`/api/image-proxy?url=https%3A%2F%2Finternal%2Fsecret%3Fx%3D1`. -/
theorem C7_listing_image_resolution :
    (∀ (url : String) (rest : List FileRef),
        itemImage (.val { files := .val (externalRef url :: rest) }) = .val url)
      ∧ (∀ (internalUrl : String) (rest : List FileRef),
        itemImage (.val { files := .val (hostedRef internalUrl :: rest) })
          = .val ("/api/image-proxy?url=" ++ encodeURIComponent internalUrl))
      ∧ itemImage (.val { files := .val [externalRef "https://x/y.png"] })
          = .val "https://x/y.png"
      ∧ itemImage (.val { files := .val [hostedRef "https://internal/secret?x=1"] })
          = .val "/api/image-proxy?url=https%3A%2F%2Finternal%2Fsecret%3Fx%3D1" := by
  refine ⟨?_, ?_, ?_, ?_⟩
  · intro url rest
    rfl
  · intro internalUrl rest
    rfl
  · rfl
  · decide

/-- C8, refuted as stated: the hosted URL `https://h/a!b'(c)*` keeps its
reserved characters `! ' ( ) *` raw after `url=`. -/
theorem C8_reserved_characters_kept_raw :
    itemImage (.val { files := .val [hostedRef "https://h/a!b'(c)*"] })
      = .val "/api/image-proxy?url=https%3A%2F%2Fh%2Fa!b'(c)*" := by
  decide

/-- C8, amended: for every hosted `internalUrl` the proxy path is
`/api/image-proxy?url=` followed by `encodeURIComponent(internalUrl)`, and
that text holds none of the reserved characters `: / ? # [ ] @ $ & + , ; =`
raw: each of them is encoded as its `%XX` escape, character by character. The
reserved characters `! ' ( ) *` are kept as they are. -/
theorem C8_encoded_url_escapes_reserved_except_five :
    (∀ (internalUrl : String) (rest : List FileRef),
        itemImage (.val { files := .val (hostedRef internalUrl :: rest) })
          = .val ("/api/image-proxy?url=" ++ encodeURIComponent internalUrl))
      ∧ (∀ (internalUrl : String) (c : Char),
          c ∈ (encodeURIComponent internalUrl).data → c ∉ escapedReserved)
      ∧ (∀ a b : String,
          encodeURIComponent (a ++ b) = encodeURIComponent a ++ encodeURIComponent b)
      ∧ (∀ c ∈ escapedReserved, encodeChar c = percentByte c.val.toNat)
      ∧ (∀ c ∈ keptReserved, encodeChar c = [c]) := by
  refine ⟨?_, ?_, ?_, ?_, ?_⟩
  · intro internalUrl rest
    rfl
  · intro internalUrl c hc
    exact encodeChars_not_escaped _ c hc
  · intro a b
    apply String.ext
    simp [encodeURIComponent, String.data_append, encodeChars_append]
  · decide
  · decide

/-! ## Visible renderings -/

theorem visible_of_lit (lit tail : String) (h : visibleLit lit = true) :
    Visible (lit ++ tail) := by
  simp only [visibleLit, Bool.and_eq_true, decide_eq_true_eq] at h
  obtain ⟨⟨h1, h2⟩, h3⟩ := h
  refine ⟨?_, ?_, ?_⟩
  · rw [String.data_append]
    exact List.mem_append_left _ h1
  · rw [String.data_append, List.length_append]
    omega
  · rw [String.data_append, List.take_append_of_le_length h2]
    exact h3

theorem visible_append (a b : String) (h : Visible a) : Visible (a ++ b) := by
  obtain ⟨h1, h2, h3⟩ := h
  refine ⟨?_, ?_, ?_⟩
  · rw [String.data_append]
    exact List.mem_append_left _ h1
  · rw [String.data_append, List.length_append]
    omega
  · rw [String.data_append, List.take_append_of_le_length h2]
    exact h3

theorem visible_ne_empty (s : String) (h : Visible s) : s ≠ "" := by
  intro hs
  subst hs
  exact absurd h.2.1 (by decide)

theorem visible_ne_placeholder (s : String) (h : Visible s) : s ≠ placeholderHtml := by
  intro hs
  subst hs
  exact h.2.2 rfl

theorem mem_dropWhile_of_not (p : Char → Bool) (c : Char) (hc : p c = false) :
    ∀ l : List Char, c ∈ l → c ∈ l.dropWhile p := by
  intro l
  induction l with
  | nil => intro h; cases h
  | cons x xs ih =>
    intro h
    rw [List.dropWhile_cons]
    split
    · rename_i hx
      rcases List.mem_cons.1 h with rfl | h'
      · rw [hc] at hx
        cases hx
      · exact ih h'
    · exact h

theorem visible_trim_ne_empty (s : String) (h : Visible s) : jsTrim s ≠ "" := by
  have hw : isJsWhiteSpace '<' = false := by decide
  have h1 := mem_dropWhile_of_not isJsWhiteSpace '<' hw s.data h.1
  have h2 := mem_dropWhile_of_not isJsWhiteSpace '<' hw _ (List.mem_reverse.2 h1)
  have h3 := List.mem_reverse.2 h2
  intro hs
  have hd : (jsTrim s).data = [] := by rw [hs]
  simp only [jsTrim] at hd
  rw [hd] at h3
  cases h3

theorem visible_imageFirstTemplate (src caption : String) :
    Visible (imageFirstTemplate src caption) := by
  unfold imageFirstTemplate
  simp only [String.append_assoc]
  exact visible_of_lit _ _ (by decide)

theorem visible_embedDriveTemplate (embedUrl : String) :
    Visible (embedDriveTemplate embedUrl) := by
  unfold embedDriveTemplate
  simp only [String.append_assoc]
  exact visible_of_lit _ _ (by decide)

theorem visible_embedGenericTemplate (url : String) :
    Visible (embedGenericTemplate url) := by
  unfold embedGenericTemplate
  simp only [String.append_assoc]
  exact visible_of_lit _ _ (by decide)

theorem visible_imageSecondTemplate (finalImageUrl caption : String) :
    Visible (imageSecondTemplate finalImageUrl caption) := by
  unfold imageSecondTemplate
  simp only [String.append_assoc]
  exact visible_of_lit _ _ (by decide)

theorem visible_videoYoutubeTemplate (videoId caption : String) :
    Visible (videoYoutubeTemplate videoId caption) := by
  unfold videoYoutubeTemplate
  simp only [String.append_assoc]
  exact visible_of_lit _ _ (by decide)

theorem visible_videoNativeTemplate (videoUrl caption : String) :
    Visible (videoNativeTemplate videoUrl caption) := by
  unfold videoNativeTemplate
  simp only [String.append_assoc]
  exact visible_of_lit _ _ (by decide)

theorem visible_fileTemplate (fileUrl fileName : String) :
    Visible (fileTemplate fileUrl fileName) := by
  unfold fileTemplate
  simp only [String.append_assoc]
  exact visible_of_lit _ _ (by decide)

theorem visible_bookmarkTemplate (url caption : String) :
    Visible (bookmarkTemplate url caption) := by
  unfold bookmarkTemplate
  simp only [String.append_assoc]
  exact visible_of_lit _ _ (by decide)

/-! ## What each branch of the block renderer returns -/

theorem renderImageFirst_visible (b : Block) (s : String) (h : renderImageFirst b = .ok s) :
    Visible s := by
  unfold renderImageFirst at h
  cases hi : b.image with
  | undefined => simp [hi, getObj, bind, Except.bind] at h
  | null => simp [hi, getObj, bind, Except.bind] at h
  | val image =>
    cases hc : image.caption with
    | undefined => simp [hi, hc, getObj, bind, Except.bind] at h
    | null => simp [hi, hc, getObj, bind, Except.bind] at h
    | val caps =>
      simp only [hi, hc, getObj, bind, Except.bind, pure, Except.pure, Except.ok.injEq] at h
      rw [← h]
      exact visible_imageFirstTemplate _ _

theorem renderEmbedUrl_visible (url : String) : Visible (renderEmbedUrl url) := by
  unfold renderEmbedUrl
  split
  · split
    · exact visible_embedDriveTemplate _
    · exact visible_embedGenericTemplate _
  · exact visible_embedGenericTemplate _

theorem renderEmbed_visible (b : Block) (s : String) (h : renderEmbed b = .ok s) :
    Visible s := by
  unfold renderEmbed at h
  cases he : b.embed with
  | undefined => simp [he, getObj, bind, Except.bind] at h
  | null => simp [he, getObj, bind, Except.bind] at h
  | val embed =>
    simp only [he, getObj, bind, Except.bind, pure, Except.pure, Except.ok.injEq] at h
    rw [← h]
    exact renderEmbedUrl_visible _

theorem renderText_visible (openTag closeTag : String) (payload : JsOpt TextPayload)
    (s : String) (ho : visibleLit openTag = true)
    (h : renderText openTag closeTag payload = .ok s) : s = "" ∨ Visible s := by
  unfold renderText at h
  cases hp : payload with
  | undefined => simp [hp, getObj, bind, Except.bind] at h
  | null => simp [hp, getObj, bind, Except.bind] at h
  | val p =>
    simp only [hp, getObj, bind, Except.bind, pure, Except.pure, Except.ok.injEq] at h
    rw [← h]
    split
    · right
      rw [String.append_assoc]
      exact visible_of_lit _ _ ho
    · left
      rfl

theorem renderCode_visible (b : Block) (s : String) (h : renderCode b = .ok s) :
    s = "" ∨ Visible s := by
  unfold renderCode at h
  cases hc : b.code with
  | undefined => simp [hc, getObj, bind, Except.bind] at h
  | null => simp [hc, getObj, bind, Except.bind] at h
  | val code =>
    cases hr : code.rich_text with
    | undefined => simp [hc, hr, getObj, bind, Except.bind] at h
    | null => simp [hc, hr, getObj, bind, Except.bind] at h
    | val richText =>
      simp only [hc, hr, getObj, bind, Except.bind, pure, Except.pure, Except.ok.injEq] at h
      rw [← h]
      split
      · right
        simp only [String.append_assoc]
        exact visible_of_lit _ _ (by decide)
      · left
        rfl

theorem renderImageSecond_visible (b : Block) (s : String) (h : renderImageSecond b = .ok s) :
    s = "" ∨ Visible s := by
  unfold renderImageSecond at h
  cases hi : b.image with
  | undefined => simp [hi, getObj, bind, Except.bind] at h
  | null => simp [hi, getObj, bind, Except.bind] at h
  | val image =>
    simp only [hi, getObj, bind, Except.bind, pure, Except.pure] at h
    split at h
    · simp only [Except.ok.injEq] at h
      rw [← h]
      exact Or.inr (visible_imageSecondTemplate _ _)
    · simp only [Except.ok.injEq] at h
      exact Or.inl h.symm

theorem renderVideoUrl_visible (videoUrl caption : String) :
    Visible (renderVideoUrl videoUrl caption) := by
  unfold renderVideoUrl
  split
  · split
    · exact visible_videoYoutubeTemplate _ _
    · exact visible_videoNativeTemplate _ _
  · exact visible_videoNativeTemplate _ _

theorem renderVideo_visible (b : Block) (s : String) (h : renderVideo b = .ok s) :
    s = "" ∨ Visible s := by
  unfold renderVideo at h
  cases hv : b.video with
  | undefined => simp [hv, getObj, bind, Except.bind] at h
  | null => simp [hv, getObj, bind, Except.bind] at h
  | val video =>
    simp only [hv, getObj, bind, Except.bind, pure, Except.pure] at h
    split at h
    · simp only [Except.ok.injEq] at h
      rw [← h]
      exact Or.inr (renderVideoUrl_visible _ _)
    · simp only [Except.ok.injEq] at h
      exact Or.inl h.symm

theorem renderFile_visible (b : Block) (s : String) (h : renderFile b = .ok s) :
    s = "" ∨ Visible s := by
  unfold renderFile at h
  cases hf : b.file with
  | undefined => simp [hf, getObj, bind, Except.bind] at h
  | null => simp [hf, getObj, bind, Except.bind] at h
  | val file =>
    simp only [hf, getObj, bind, Except.bind, pure, Except.pure] at h
    split at h
    · simp only [Except.ok.injEq] at h
      rw [← h]
      exact Or.inr (visible_fileTemplate _ _)
    · simp only [Except.ok.injEq] at h
      exact Or.inl h.symm

theorem renderBookmark_visible (b : Block) :
    renderBookmark b = "" ∨ Visible (renderBookmark b) := by
  by_cases hu : truthyStr (optChain b.bookmark (·.url)) = true
  · right
    simp only [renderBookmark, hu, if_true]
    exact visible_bookmarkTemplate _ _
  · left
    simp only [renderBookmark, hu]
    rfl

/-- Every rendering of a block is the empty string or visible markup. -/
theorem renderBlock_empty_or_visible (b : Block) (s : String) (h : renderBlock b = .ok s) :
    s = "" ∨ Visible s := by
  unfold renderBlock at h
  by_cases h1 : typeIs b "image" = true
  · rw [if_pos h1] at h
    exact Or.inr (renderImageFirst_visible b s h)
  rw [if_neg h1] at h
  by_cases h2 : (typeIs b "embed" && truthyStr (optChain b.embed (·.url))) = true
  · rw [if_pos h2] at h
    exact Or.inr (renderEmbed_visible b s h)
  rw [if_neg h2] at h
  by_cases h3 : (typeIs b "paragraph" && truthyObj (optChain b.paragraph (·.rich_text))) = true
  · rw [if_pos h3] at h
    exact renderText_visible _ _ _ s (by decide) h
  rw [if_neg h3] at h
  by_cases h4 : (typeIs b "heading_1" && truthyObj (optChain b.heading_1 (·.rich_text))) = true
  · rw [if_pos h4] at h
    exact renderText_visible _ _ _ s (by decide) h
  rw [if_neg h4] at h
  by_cases h5 : (typeIs b "heading_2" && truthyObj (optChain b.heading_2 (·.rich_text))) = true
  · rw [if_pos h5] at h
    exact renderText_visible _ _ _ s (by decide) h
  rw [if_neg h5] at h
  by_cases h6 : (typeIs b "heading_3" && truthyObj (optChain b.heading_3 (·.rich_text))) = true
  · rw [if_pos h6] at h
    exact renderText_visible _ _ _ s (by decide) h
  rw [if_neg h6] at h
  by_cases h7 : (typeIs b "quote" && truthyObj (optChain b.quote (·.rich_text))) = true
  · rw [if_pos h7] at h
    exact renderText_visible _ _ _ s (by decide) h
  rw [if_neg h7] at h
  by_cases h8 : (typeIs b "code" && truthyObj (optChain b.code (·.rich_text))) = true
  · rw [if_pos h8] at h
    exact renderCode_visible b s h
  rw [if_neg h8] at h
  by_cases h9 : typeIs b "image" = true
  · rw [if_pos h9] at h
    exact renderImageSecond_visible b s h
  rw [if_neg h9] at h
  by_cases h10 : typeIs b "video" = true
  · rw [if_pos h10] at h
    exact renderVideo_visible b s h
  rw [if_neg h10] at h
  by_cases h11 : typeIs b "file" = true
  · rw [if_pos h11] at h
    exact renderFile_visible b s h
  rw [if_neg h11] at h
  by_cases h12 : typeIs b "bookmark" = true
  · rw [if_pos h12] at h
    simp only [Except.ok.injEq] at h
    rw [← h]
    exact renderBookmark_visible b
  rw [if_neg h12] at h
  by_cases h13 : typeIs b "divider" = true
  · rw [if_pos h13] at h
    simp only [Except.ok.injEq] at h
    rw [← h]
    right
    have := visible_of_lit "<hr class=\"my-6 border-gray-300\">" "" (by decide)
    simpa using this
  rw [if_neg h13] at h
  simp only [Except.ok.injEq] at h
  exact Or.inl h.symm

theorem mapBlocks_forall₂ (f : Block → Except JsError String) :
    ∀ (blocks : List Block) (contents : List String),
      mapBlocks f blocks = .ok contents →
        List.Forall₂ (fun b c => f b = .ok c) blocks contents := by
  intro blocks
  induction blocks with
  | nil =>
    intro contents h
    simp only [mapBlocks, Except.ok.injEq] at h
    subst h
    exact List.Forall₂.nil
  | cons b rest ih =>
    intro contents h
    simp only [mapBlocks] at h
    cases hb : f b with
    | error e => simp [hb] at h
    | ok c =>
      cases hr : mapBlocks f rest with
      | error e => simp [hb, hr] at h
      | ok cs =>
        simp only [hb, hr, Except.ok.injEq] at h
        subst h
        exact List.Forall₂.cons hb (ih cs hr)

theorem forall₂_empty_or_visible {blocks : List Block} {contents : List String}
    (hf : List.Forall₂ (fun b c => renderBlock b = .ok c) blocks contents) :
    ∀ c ∈ contents, c = "" ∨ Visible c := by
  induction hf with
  | nil => intro c hc; cases hc
  | cons hb _ ih =>
    intro c hc
    rcases List.mem_cons.1 hc with rfl | hc
    · exact renderBlock_empty_or_visible _ _ hb
    · exact ih c hc

theorem mapBlocks_empty_or_visible (blocks : List Block) (contents : List String)
    (h : mapBlocks renderBlock blocks = .ok contents) :
    ∀ c ∈ contents, c = "" ∨ Visible c :=
  forall₂_empty_or_visible (mapBlocks_forall₂ renderBlock blocks contents h)

/-! ## The html assembly -/

theorem jsJoin_empty_eq_foldr (l : List String) :
    jsJoin "" l = l.foldr (fun c acc => c ++ acc) "" := by
  induction l with
  | nil => rfl
  | cons x xs ih => rw [jsJoin_empty_cons, ih, List.foldr_cons]

theorem filter_jsLength_pos (contents : List String) :
    contents.filter (fun content => decide (jsLength content > 0))
      = contents.filter (fun content => decide (content ≠ "")) := by
  apply List.filter_congr
  intro c _
  have := jsLength_eq_zero_iff c
  by_cases hc : c = ""
  · subst hc
    simp [show jsLength "" = 0 from rfl]
  · have h0 : jsLength c ≠ 0 := fun h => hc (this.1 h)
    simp [hc, Nat.pos_of_ne_zero h0]

/-- The concatenation, in order and with no separator, of the non-empty
strings of a list. -/
theorem assembleHtml_of_contents (blocks : List Block) (contents : List String)
    (h : mapBlocks renderBlock blocks = .ok contents) :
    assembleHtml blocks
      = .ok (if jsTrim ((contents.filter (fun c => decide (c ≠ ""))).foldr
                (fun c acc => c ++ acc) "") = ""
          then placeholderHtml
          else (contents.filter (fun c => decide (c ≠ ""))).foldr (fun c acc => c ++ acc) "") := by
  unfold assembleHtml
  rw [h]
  simp only [filter_jsLength_pos, jsJoin_empty_eq_foldr]
  split <;> rfl

theorem survivors_visible (contents : List String)
    (hv : ∀ c ∈ contents, c = "" ∨ Visible c) (hne : ∃ c ∈ contents, c ≠ "") :
    Visible ((contents.filter (fun c => decide (c ≠ ""))).foldr (fun c acc => c ++ acc) "") := by
  obtain ⟨c, hc, hcne⟩ := hne
  have hmem : c ∈ contents.filter (fun c => decide (c ≠ "")) := by
    simp [List.mem_filter, hc, hcne]
  cases hl : contents.filter (fun c => decide (c ≠ "")) with
  | nil => rw [hl] at hmem; cases hmem
  | cons x xs =>
    have hx : x ∈ contents.filter (fun c => decide (c ≠ "")) := by
      rw [hl]; exact List.mem_cons_self _ _
    rw [List.mem_filter] at hx
    have hxne : x ≠ "" := by simpa using hx.2
    rcases hv x hx.1 with h0 | hvis
    · exact absurd h0 hxne
    · rw [List.foldr_cons]
      exact visible_append _ _ hvis

theorem survivors_nil (contents : List String) (he : ∀ c ∈ contents, c = "") :
    contents.filter (fun c => decide (c ≠ "")) = [] := by
  rw [List.filter_eq_nil_iff]
  intro c hc
  simp [he c hc]

theorem assembleHtml_all_empty (blocks : List Block) (contents : List String)
    (h : mapBlocks renderBlock blocks = .ok contents) (he : ∀ c ∈ contents, c = "") :
    assembleHtml blocks = .ok placeholderHtml := by
  rw [assembleHtml_of_contents blocks contents h, survivors_nil contents he]
  rfl

theorem assembleHtml_some_visible (blocks : List Block) (contents : List String)
    (h : mapBlocks renderBlock blocks = .ok contents) (hne : ∃ c ∈ contents, c ≠ "") :
    assembleHtml blocks
        = .ok ((contents.filter (fun c => decide (c ≠ ""))).foldr (fun c acc => c ++ acc) "")
      ∧ Visible ((contents.filter (fun c => decide (c ≠ ""))).foldr
          (fun c acc => c ++ acc) "") := by
  have hv := survivors_visible contents (mapBlocks_empty_or_visible blocks contents h) hne
  refine ⟨?_, hv⟩
  rw [assembleHtml_of_contents blocks contents h, if_neg (visible_trim_ne_empty _ hv)]

/-- C9: for every block sequence on which no block's rendering throws, with
`contents` the per-block renderings in order: when some rendering is not empty
the assembled html is the concatenation, in order and with no separator, of
the non-empty renderings; it is the placeholder fragment
`<p class="text-gray-500 italic">Tidak ada konten yang dapat ditampilkan.</p>`
exactly when every rendering is the empty string; and no non-empty rendering
is blank, so the `trim()` test coincides with emptiness. -/
theorem C9_assembled_html_is_concatenation_or_placeholder
    (blocks : List Block) (contents : List String)
    (h : mapBlocks renderBlock blocks = .ok contents) :
    List.Forall₂ (fun b c => renderBlock b = .ok c) blocks contents
      ∧ ((∃ c ∈ contents, c ≠ "") →
          assembleHtml blocks
            = .ok ((contents.filter (fun c => decide (c ≠ ""))).foldr
                (fun c acc => c ++ acc) ""))
      ∧ (assembleHtml blocks
            = .ok "<p class=\"text-gray-500 italic\">Tidak ada konten yang dapat ditampilkan.</p>"
          ↔ ∀ c ∈ contents, c = "")
      ∧ (∀ c ∈ contents, c ≠ "" → jsTrim c ≠ "") := by
  have hp : placeholderHtml
      = "<p class=\"text-gray-500 italic\">Tidak ada konten yang dapat ditampilkan.</p>" := rfl
  rw [← hp]
  refine ⟨mapBlocks_forall₂ renderBlock blocks contents h, ?_, ?_, ?_⟩
  · intro hne
    exact (assembleHtml_some_visible blocks contents h hne).1
  · constructor
    · intro hp
      by_contra hne
      have hne' : ∃ c ∈ contents, c ≠ "" := by
        simpa using hne
      obtain ⟨heq, hv⟩ := assembleHtml_some_visible blocks contents h hne'
      rw [heq, Except.ok.injEq] at hp
      exact visible_ne_placeholder _ hv hp
    · exact assembleHtml_all_empty blocks contents h
  · intro c hc hcne
    rcases mapBlocks_empty_or_visible blocks contents h c hc with h0 | hv
    · exact absurd h0 hcne
    · exact visible_trim_ne_empty c hv

/-- Witness of C9: a paragraph with the text `x`, a block of an unknown kind,
a divider and a paragraph with no payload assemble to the paragraph followed
by the rule, in that order and with nothing between them; two blocks that
render nothing assemble to the placeholder fragment. -/
theorem C9_assembled_html_is_concatenation_or_placeholder_witness :
    assembleHtml [{ bareBlock "paragraph" with paragraph := .val { rich_text := .val [mkSpan "x" none false false false false false] } }, bareBlock "unknown", bareBlock "divider", bareBlock "paragraph"]
        = .ok "<p class=\"mb-4\">x</p><hr class=\"my-6 border-gray-300\">"
      ∧ assembleHtml [bareBlock "unknown", bareBlock "paragraph"]
        = .ok "<p class=\"text-gray-500 italic\">Tidak ada konten yang dapat ditampilkan.</p>" :=
  ⟨((C9_assembled_html_is_concatenation_or_placeholder
      [{ bareBlock "paragraph" with paragraph := .val { rich_text := .val [mkSpan "x" none false false false false false] } }, bareBlock "unknown", bareBlock "divider", bareBlock "paragraph"]
      ["<p class=\"mb-4\">x</p>", "", "<hr class=\"my-6 border-gray-300\">", ""] rfl).2.1
        ⟨"<hr class=\"my-6 border-gray-300\">", by decide, by decide⟩).trans rfl,
    (C9_assembled_html_is_concatenation_or_placeholder
      [bareBlock "unknown", bareBlock "paragraph"] ["", ""] rfl).2.2.1.2 (by decide)⟩

/-- C10: the assembler never returns the empty string. The empty sequence
gives the placeholder fragment, a single divider gives
`<hr class="my-6 border-gray-300">`, a single block of an unrecognized kind
gives the placeholder fragment, and every block sequence on which rendering
does not throw gives a non-empty result. -/
theorem C10_assembler_never_empty :
    assembleHtml [] = .ok placeholderHtml
      ∧ (∀ b : Block, b.type = .val "divider" →
          assembleHtml [b] = .ok "<hr class=\"my-6 border-gray-300\">")
      ∧ (∀ b : Block, (∀ k ∈ recognizedKinds, b.type ≠ .val k) →
          assembleHtml [b] = .ok placeholderHtml)
      ∧ (∀ (blocks : List Block) (contents : List String),
          mapBlocks renderBlock blocks = .ok contents →
            ∃ html, assembleHtml blocks = .ok html ∧ html ≠ "")
      ∧ (∀ (blocks : List Block) (html : String),
          assembleHtml blocks = .ok html → html ≠ "") := by
  have hgen : ∀ (blocks : List Block) (contents : List String),
      mapBlocks renderBlock blocks = .ok contents →
        ∃ html, assembleHtml blocks = .ok html ∧ html ≠ "" := by
    intro blocks contents h
    by_cases he : ∀ c ∈ contents, c = ""
    · exact ⟨placeholderHtml, assembleHtml_all_empty blocks contents h he, by decide⟩
    · have hne : ∃ c ∈ contents, c ≠ "" := by
        simpa using he
      obtain ⟨heq, hv⟩ := assembleHtml_some_visible blocks contents h hne
      exact ⟨_, heq, visible_ne_empty _ hv⟩
  refine ⟨rfl, ?_, ?_, hgen, ?_⟩
  · intro b hb
    have hr : renderBlock b = .ok "<hr class=\"my-6 border-gray-300\">" := by
      simp [renderBlock, typeIs, hb]
    have hm : mapBlocks renderBlock [b] = .ok ["<hr class=\"my-6 border-gray-300\">"] := by
      simp [mapBlocks, hr]
    exact (assembleHtml_some_visible [b] _ hm
      ⟨_, List.mem_singleton.2 rfl, by decide⟩).1.trans rfl
  · intro b hb
    have hr : renderBlock b = .ok "" := by
      have h_image : typeIs b "image" = false := by
        simp [typeIs, hb "image" (by decide)]
      have h_embed : typeIs b "embed" = false := by
        simp [typeIs, hb "embed" (by decide)]
      have h_paragraph : typeIs b "paragraph" = false := by
        simp [typeIs, hb "paragraph" (by decide)]
      have h_heading_1 : typeIs b "heading_1" = false := by
        simp [typeIs, hb "heading_1" (by decide)]
      have h_heading_2 : typeIs b "heading_2" = false := by
        simp [typeIs, hb "heading_2" (by decide)]
      have h_heading_3 : typeIs b "heading_3" = false := by
        simp [typeIs, hb "heading_3" (by decide)]
      have h_quote : typeIs b "quote" = false := by
        simp [typeIs, hb "quote" (by decide)]
      have h_code : typeIs b "code" = false := by
        simp [typeIs, hb "code" (by decide)]
      have h_video : typeIs b "video" = false := by
        simp [typeIs, hb "video" (by decide)]
      have h_file : typeIs b "file" = false := by
        simp [typeIs, hb "file" (by decide)]
      have h_bookmark : typeIs b "bookmark" = false := by
        simp [typeIs, hb "bookmark" (by decide)]
      have h_divider : typeIs b "divider" = false := by
        simp [typeIs, hb "divider" (by decide)]
      simp [renderBlock, h_image, h_embed, h_paragraph, h_heading_1, h_heading_2, h_heading_3, h_quote, h_code, h_video, h_file, h_bookmark, h_divider]
    have hm : mapBlocks renderBlock [b] = .ok [""] := by
      simp [mapBlocks, hr]
    exact assembleHtml_all_empty [b] _ hm (by simp)
  · intro blocks html h
    cases hm : mapBlocks renderBlock blocks with
    | error e => simp [assembleHtml, hm] at h
    | ok contents =>
      obtain ⟨html', h1, h2⟩ := hgen blocks contents hm
      rw [h1, Except.ok.injEq] at h
      rw [← h]
      exact h2

/-- Witness of C10: a paragraph with the text `x` followed by a block of an
unknown kind assembles to the paragraph alone, a non-empty result. -/
theorem C10_assembler_never_empty_witness :
    (∃ html,
        assembleHtml [{ bareBlock "paragraph" with
            paragraph := .val { rich_text := .val [mkSpan "x" none false false false false false] } },
          bareBlock "unknown"] = .ok html ∧ html ≠ "")
      ∧ assembleHtml [bareBlock "divider"] = .ok "<hr class=\"my-6 border-gray-300\">"
      ∧ assembleHtml [bareBlock "unknown"] = .ok placeholderHtml :=
  ⟨C10_assembler_never_empty.2.2.2.1 _ ["<p class=\"mb-4\">x</p>", ""] rfl,
    C10_assembler_never_empty.2.1 (bareBlock "divider") rfl,
    C10_assembler_never_empty.2.2.1 (bareBlock "unknown") (by decide)⟩

/-! ## C1-C2: missing payloads and hosted sources in the block renderer -/

/-- C1, the code at the failing inputs: an image block with no `image` object,
an image block whose `image` has no `caption` array, a video block with no
`video` object and a file block with no `file` object make the render step
throw a `TypeError`, which ends the assembly of the whole page; an image
block with an empty `image` payload and caption renders an `<img>` whose
source is the text `undefined`. The branches with an optional chain
(paragraph, embed, code, bookmark) return the empty string on a missing
payload. -/
theorem C1_missing_payload_throws :
    renderBlock (bareBlock "image") = .error .typeError
      ∧ renderBlock { bareBlock "image" with
            image := .val { external := .val { url := .val "https://x/y.png" },
                            file := .undefined, caption := .undefined } }
          = .error .typeError
      ∧ renderBlock (bareBlock "video") = .error .typeError
      ∧ renderBlock (bareBlock "file") = .error .typeError
      ∧ assembleHtml [bareBlock "divider", bareBlock "image"] = .error .typeError
      ∧ renderBlock { bareBlock "image" with
            image := .val { external := .undefined, file := .undefined, caption := .val [] } }
          = .ok (imageFirstTemplate "undefined" "")
      ∧ renderBlock (bareBlock "paragraph") = .ok ""
      ∧ renderBlock (bareBlock "embed") = .ok ""
      ∧ renderBlock (bareBlock "code") = .ok ""
      ∧ renderBlock (bareBlock "bookmark") = .ok "" :=
  ⟨rfl, rfl, rfl, rfl, rfl, rfl, rfl, rfl, rfl, rfl⟩

/-- C2, refuted as stated: the hosted file block with `file.url`
`https://h/f.pdf` renders a download link whose `href` is that URL itself, and
that output is not the one with the proxied URL. -/
theorem C2_hosted_file_url_exposed :
    renderBlock (hostedFileBlock "https://h/f.pdf" .undefined (.val "f.pdf"))
        = .ok (fileTemplate "https://h/f.pdf" "f.pdf")
      ∧ fileTemplate "https://h/f.pdf" "f.pdf"
        ≠ fileTemplate ("/api/image-proxy?url=" ++ encodeURIComponent "https://h/f.pdf") "f.pdf" := by
  refine ⟨rfl, ?_⟩
  decide

/-- C2, amended: for every file block whose source is hosted with a non-empty
`file.url` `u`, the rendered download link carries `u` itself as its `href`:
the output is the file template at `u`, which opens with the container and
`<a href="u"`. -/
theorem C2_hosted_file_href_is_raw_url (u : String) (external : JsOpt UrlObj)
    (name : JsOpt String) (hu : u ≠ "") :
    renderBlock (hostedFileBlock u external name)
        = .ok (fileTemplate u (if truthyStr name then toStr name else "File"))
      ∧ ∃ tail, fileTemplate u (if truthyStr name then toStr name else "File")
        = "\n            <div class=\"my-4 p-4 border border-gray-300 rounded-lg bg-gray-50\">\n              <a href=\""
          ++ u ++ "\"" ++ tail := by
  constructor
  · simp [renderBlock, typeIs, hostedFileBlock, bareBlock, renderFile, getObj, bind, Except.bind,
      pure, Except.pure, pickUrl, pickFileName, truthyStr, toStr, hu]
  · refine ⟨" target=\"_blank\" rel=\"noopener noreferrer\" \n                 class=\"flex items-center text-blue-600 hover:text-blue-800\">\n                <svg class=\"w-5 h-5 mr-2\" fill=\"currentColor\" viewBox=\"0 0 20 20\">\n                  <path d=\"M4 4a2 2 0 00-2 2v8a2 2 0 002 2h12a2 2 0 002-2V6a2 2 0 00-2-2H4zm2 6a1 1 0 011-1h6a1 1 0 110 2H7a1 1 0 01-1-1zm1 3a1 1 0 100 2h6a1 1 0 100-2H7z\"/>\n                </svg>\n                \u00f0\u0178\u201c\u017d "
        ++ (if truthyStr name then toStr name else "File")
        ++ "\n              </a>\n            </div>\n          ", ?_⟩
    have hl : "\" target=\"_blank\" rel=\"noopener noreferrer\" \n                 class=\"flex items-center text-blue-600 hover:text-blue-800\">\n                <svg class=\"w-5 h-5 mr-2\" fill=\"currentColor\" viewBox=\"0 0 20 20\">\n                  <path d=\"M4 4a2 2 0 00-2 2v8a2 2 0 002 2h12a2 2 0 002-2V6a2 2 0 00-2-2H4zm2 6a1 1 0 011-1h6a1 1 0 110 2H7a1 1 0 01-1-1zm1 3a1 1 0 100 2h6a1 1 0 100-2H7z\"/>\n                </svg>\n                \u00f0\u0178\u201c\u017d "
        = "\"" ++ " target=\"_blank\" rel=\"noopener noreferrer\" \n                 class=\"flex items-center text-blue-600 hover:text-blue-800\">\n                <svg class=\"w-5 h-5 mr-2\" fill=\"currentColor\" viewBox=\"0 0 20 20\">\n                  <path d=\"M4 4a2 2 0 00-2 2v8a2 2 0 002 2h12a2 2 0 002-2V6a2 2 0 00-2-2H4zm2 6a1 1 0 011-1h6a1 1 0 110 2H7a1 1 0 01-1-1zm1 3a1 1 0 100 2h6a1 1 0 100-2H7z\"/>\n                </svg>\n                \u00f0\u0178\u201c\u017d " := by
      decide
    unfold fileTemplate
    rw [hl]
    simp only [String.append_assoc]

/-- Witness of the amended C2: the hosted file `https://h/f.pdf` with no name. -/
theorem C2_hosted_file_href_is_raw_url_witness :
    renderBlock (hostedFileBlock "https://h/f.pdf" .undefined .undefined)
      = .ok (fileTemplate "https://h/f.pdf" "File") :=
  (C2_hosted_file_href_is_raw_url "https://h/f.pdf" .undefined .undefined (by decide)).1

/-! ## C11-C12: embed blocks -/

theorem includesChars_iff_contains (sub : List Char) :
    ∀ s : List Char, includesChars sub s = true ↔ sub <:+: s
  | [] => by
    simp [includesChars, List.isEmpty_iff]
  | c :: cs => by
    rw [includesChars, Bool.or_eq_true, List.isPrefixOf_iff_prefix,
      includesChars_iff_contains sub cs, List.infix_cons_iff]

theorem jsIncludes_iff_contains (s sub : String) :
    jsIncludes s sub = true ↔ sub.data <:+: s.data :=
  includesChars_iff_contains sub.data s.data

theorem takeWhile_append_run (p : Char → Bool) (run rest : List Char)
    (hrun : ∀ c ∈ run, p c = true) (hrest : ∀ c ∈ rest.head?, p c = false) :
    (run ++ rest).takeWhile p = run := by
  induction run with
  | nil =>
    cases rest with
    | nil => rfl
    | cons r rs =>
      have : p r = false := hrest r (by simp)
      simp [List.takeWhile_cons, this]
  | cons x xs ih =>
    have hx : p x = true := hrun x (List.mem_cons_self _ _)
    simp only [List.cons_append, List.takeWhile_cons, hx, if_true]
    rw [ih (fun c hc => hrun c (List.mem_cons_of_mem _ hc))]

theorem takeWhile_ne_nil (p : Char → Bool) (l : List Char) (h : l.takeWhile p ≠ []) :
    ∃ c q, l = c :: q ∧ p c = true := by
  cases l with
  | nil => exact absurd rfl h
  | cons c q =>
    refine ⟨c, q, rfl, ?_⟩
    by_contra hc
    simp [List.takeWhile_cons, hc] at h

/-- The regular expression matches at the head of `s` exactly when `s` is
`/d/` followed by an id character. -/
theorem driveHead_iff (s : List Char) :
    ("/d/".data.isPrefixOf s
        && decide ((s.drop 3).takeWhile isDriveIdChar ≠ [])) = true
      ↔ ∃ c q, DriveMatchAt s [] c q := by
  constructor
  · intro h
    rw [Bool.and_eq_true, List.isPrefixOf_iff_prefix, decide_eq_true_eq] at h
    obtain ⟨⟨u, hu⟩, ht⟩ := h
    subst hu
    have hd : ("/d/".data ++ u).drop 3 = u := rfl
    rw [hd] at ht
    obtain ⟨c, q, rfl, hc⟩ := takeWhile_ne_nil _ _ ht
    exact ⟨c, q, hc, rfl⟩
  · rintro ⟨c, q, hc, rfl⟩
    rw [Bool.and_eq_true, List.isPrefixOf_iff_prefix, decide_eq_true_eq]
    refine ⟨⟨c :: q, rfl⟩, ?_⟩
    have hd : ([] ++ "/d/".data ++ c :: q).drop 3 = c :: q := rfl
    rw [hd]
    simp [List.takeWhile_cons, hc]

theorem matchDriveId_none (s : List Char) (h : ∀ pre c q, ¬ DriveMatchAt s pre c q) :
    matchDriveId s = none := by
  induction s with
  | nil => rfl
  | cons x t ih =>
    rw [matchDriveId]
    have hhead : ¬ (("/d/".data.isPrefixOf (x :: t)
        && decide (((x :: t).drop 3).takeWhile isDriveIdChar ≠ [])) = true) := by
      intro hm
      obtain ⟨c, q, hcq⟩ := (driveHead_iff (x :: t)).1 hm
      exact h [] c q hcq
    rw [if_neg hhead]
    apply ih
    intro pre c q hm
    exact h (x :: pre) c q ⟨hm.1, by rw [hm.2]; rfl⟩

theorem matchDriveId_leftmost (pre run rest : List Char) (hne : run ≠ [])
    (hrun : ∀ c ∈ run, isDriveIdChar c = true)
    (hrest : ∀ c ∈ rest.head?, isDriveIdChar c = false)
    (hleft : ∀ p c q, DriveMatchAt (pre ++ "/d/".data ++ run ++ rest) p c q →
      pre.length ≤ p.length) :
    matchDriveId (pre ++ "/d/".data ++ run ++ rest) = some run := by
  induction pre with
  | nil =>
    have hs : ([] ++ "/d/".data ++ run ++ rest) = '/' :: ('d' :: ('/' :: (run ++ rest))) := by
      simp
    rw [hs, matchDriveId]
    have hd : ('/' :: ('d' :: ('/' :: (run ++ rest)))).drop 3 = run ++ rest := rfl
    rw [hd, takeWhile_append_run _ _ _ hrun hrest]
    simp [hne]
  | cons x pre ih =>
    have hs : (x :: pre ++ "/d/".data ++ run ++ rest)
        = x :: (pre ++ "/d/".data ++ run ++ rest) := by
      simp
    rw [hs] at hleft ⊢
    rw [matchDriveId]
    have hhead : ¬ (("/d/".data.isPrefixOf (x :: (pre ++ "/d/".data ++ run ++ rest))
        && decide (((x :: (pre ++ "/d/".data ++ run ++ rest)).drop 3).takeWhile
            isDriveIdChar ≠ [])) = true) := by
      intro hm
      obtain ⟨c, q, hcq⟩ := (driveHead_iff _).1 hm
      have := hleft [] c q hcq
      simp at this
    rw [if_neg hhead]
    apply ih
    intro p c q hm
    have := hleft (x :: p) c q ⟨hm.1, by rw [hm.2]; rfl⟩
    simpa using this

theorem renderBlock_embed (b : Block) (url : String) (hb : b.type = .val "embed")
    (he : b.embed = .val { url := .val url }) (hu : url ≠ "") :
    renderBlock b = .ok (renderEmbedUrl url) := by
  simp [renderBlock, typeIs, hb, he, optChain, truthyStr, hu, renderEmbed, getObj, bind,
    Except.bind, pure, Except.pure, toStr]

theorem renderEmbedUrl_generic_of_not_includes (url : String)
    (h : ¬ "drive.google.com".data <:+: url.data) :
    renderEmbedUrl url = embedGenericTemplate url := by
  have hi : ¬ (jsIncludes url "drive.google.com" = true) := by
    rw [jsIncludes_iff_contains]
    exact h
  simp only [renderEmbedUrl, if_neg hi]

theorem driveMatchAt_drop (s p : List Char) (c : Char) (q : List Char)
    (h : DriveMatchAt s p c q) : "/d/".data.isPrefixOf (s.drop p.length) = true := by
  rw [h.2, List.append_assoc, List.drop_left, List.isPrefixOf_iff_prefix]
  exact ⟨c :: q, rfl⟩

/-- C11, refuted as stated: the embed URL `https://example.com/d/abc123/view`
has a `/d/<id>/` segment, and the output is the generic frame at the original
URL, not the preview frame; the embed URL
`https://drive.google.com/file/d/abc123` has no `/d/<id>/` segment closed by a
`/`, and the output is the preview frame. -/
theorem C11_drive_segment_outside_drive_not_rewritten :
    renderBlock (embedBlock "https://example.com/d/abc123/view")
        = .ok (embedGenericTemplate "https://example.com/d/abc123/view")
      ∧ embedGenericTemplate "https://example.com/d/abc123/view"
        ≠ embedDriveTemplate "https://drive.google.com/file/d/abc123/preview"
      ∧ renderBlock (embedBlock "https://drive.google.com/file/d/abc123")
        = .ok (embedDriveTemplate "https://drive.google.com/file/d/abc123/preview") := by
  refine ⟨rfl, by decide, rfl⟩

/-- C11, amended: for every embed block with a non-empty URL, if the URL
contains the text `drive.google.com` and the leftmost `/d/` that is followed
by a letter, digit, `_` or `-` is followed by the maximal run `run` of such
characters, the iframe src is `https://drive.google.com/file/d/<run>/preview`;
if the URL does not contain `drive.google.com`, or contains no `/d/` followed
by such a character, the iframe src is the original URL unchanged. -/
theorem C11_embed_drive_rewrite (b : Block) (url : String)
    (hb : b.type = .val "embed") (he : b.embed = .val { url := .val url }) (hu : url ≠ "") :
    (∀ pre run rest : List Char,
        "drive.google.com".data <:+: url.data →
        url.data = pre ++ "/d/".data ++ run ++ rest →
        run ≠ [] →
        (∀ c ∈ run, isDriveIdChar c = true) →
        (∀ c ∈ rest.head?, isDriveIdChar c = false) →
        (∀ p c q, DriveMatchAt url.data p c q → pre.length ≤ p.length) →
        renderBlock b
          = .ok (embedDriveTemplate
              ("https://drive.google.com/file/d/" ++ String.mk run ++ "/preview")))
      ∧ (¬ "drive.google.com".data <:+: url.data →
          renderBlock b = .ok (embedGenericTemplate url))
      ∧ ((∀ pre c q, ¬ DriveMatchAt url.data pre c q) →
          renderBlock b = .ok (embedGenericTemplate url)) := by
  rw [renderBlock_embed b url hb he hu]
  refine ⟨?_, ?_, ?_⟩
  · intro pre run rest hinc hurl hne hrun hrest hleft
    have hi : jsIncludes url "drive.google.com" = true := (jsIncludes_iff_contains _ _).2 hinc
    have hm : matchDriveId url.data = some run := by
      rw [hurl] at hleft ⊢
      exact matchDriveId_leftmost pre run rest hne hrun hrest hleft
    simp only [renderEmbedUrl, hi, if_true, hm]
  · intro hinc
    rw [renderEmbedUrl_generic_of_not_includes url hinc]
  · intro hnone
    have hm : matchDriveId url.data = none := matchDriveId_none _ hnone
    simp only [renderEmbedUrl, hm]
    split <;> rfl

/-- Witness of the amended C11: the URL
`https://drive.google.com/file/d/1AbC_-x/view`. -/
theorem C11_embed_drive_rewrite_witness :
    renderBlock (embedBlock "https://drive.google.com/file/d/1AbC_-x/view")
      = .ok (embedDriveTemplate "https://drive.google.com/file/d/1AbC_-x/preview") :=
  ((C11_embed_drive_rewrite (embedBlock "https://drive.google.com/file/d/1AbC_-x/view")
      "https://drive.google.com/file/d/1AbC_-x/view" rfl rfl (by decide)).1
    "https://drive.google.com/file".data "1AbC_-x".data "/view".data
    ((jsIncludes_iff_contains _ _).1 (by decide)) rfl (by decide) (by decide) (by decide)
    (by
      intro p c q hm
      have hd := driveMatchAt_drop _ p c q hm
      by_contra hlt
      have hall : ∀ i, i < 29 →
          "/d/".data.isPrefixOf
            ("https://drive.google.com/file/d/1AbC_-x/view".data.drop i) = false := by
        decide
      have hp : p.length < 29 := Nat.lt_of_not_le hlt
      rw [hall p.length hp] at hd
      cases hd)).trans rfl

/-- C12, refuted as stated: the host of
`https://example.com/drive.google.com/d/abc123/view` is `example.com`, and the
output is the preview frame of `drive.google.com`, not the generic frame at
the original URL. -/
theorem C12_substring_test_not_host_test :
    urlHost "https://example.com/drive.google.com/d/abc123/view" = "example.com"
      ∧ renderBlock (embedBlock "https://example.com/drive.google.com/d/abc123/view")
        = .ok (embedDriveTemplate "https://drive.google.com/file/d/abc123/preview")
      ∧ embedDriveTemplate "https://drive.google.com/file/d/abc123/preview"
        ≠ embedGenericTemplate "https://example.com/drive.google.com/d/abc123/view" := by
  refine ⟨by decide, rfl, by decide⟩

/-- C12, amended: for every embed block whose non-empty URL does not contain
the text `drive.google.com` anywhere (host, path or query), the output is the
generic embedded frame whose src is the original URL unchanged, whatever
`/d/<id>` segment the URL has. -/
theorem C12_embed_without_drive_text_is_generic (b : Block) (url : String)
    (hb : b.type = .val "embed") (he : b.embed = .val { url := .val url }) (hu : url ≠ "")
    (hno : ¬ "drive.google.com".data <:+: url.data) :
    renderBlock b = .ok (embedGenericTemplate url)
      ∧ embedGenericTemplate url
        = "\n    <div class=\"my-6 aspect-video\">\n      <iframe src=\"" ++ url
          ++ "\" \n              class=\"w-full h-full rounded-lg shadow\" \n              frameborder=\"0\" \n              allowfullscreen \n              loading=\"lazy\">\n      </iframe>\n    </div>\n  " := by
  rw [renderBlock_embed b url hb he hu, renderEmbedUrl_generic_of_not_includes url hno]
  exact ⟨rfl, rfl⟩

/-- Witness of the amended C12: the URL `https://www.figma.com/d/abc123/view`,
which has a `/d/<id>/` segment and no `drive.google.com`. -/
theorem C12_embed_without_drive_text_is_generic_witness :
    renderBlock (embedBlock "https://www.figma.com/d/abc123/view")
      = .ok (embedGenericTemplate "https://www.figma.com/d/abc123/view") :=
  (C12_embed_without_drive_text_is_generic (embedBlock "https://www.figma.com/d/abc123/view")
    "https://www.figma.com/d/abc123/view" rfl rfl (by decide)
    (fun h => absurd ((jsIncludes_iff_contains _ _).2 h) (by decide))).1

/-! ## C13: video blocks -/

theorem matchYoutubeAlt_prefix (lit s v : List Char) (h : matchYoutubeAlt lit s = some v) :
    lit <+: s := by
  unfold matchYoutubeAlt at h
  split at h
  · rename_i hc
    rw [Bool.and_eq_true, List.isPrefixOf_iff_prefix] at hc
    exact hc.1
  · cases h

/-- A match of the YouTube pattern implies that the URL contains `youtube.com`
or `youtu.be`. -/
theorem matchYoutubeId_includes (s v : List Char) (h : matchYoutubeId s = some v) :
    "youtube.com".data <:+: s ∨ "youtu.be".data <:+: s := by
  induction s with
  | nil => cases h
  | cons c cs ih =>
    rw [matchYoutubeId] at h
    cases h1 : matchYoutubeAlt "youtube.com/watch?v=".data (c :: cs) with
    | some w =>
      left
      have hp := matchYoutubeAlt_prefix _ _ _ h1
      have hl : "youtube.com".data <+: "youtube.com/watch?v=".data := ⟨"/watch?v=".data, rfl⟩
      exact (hl.trans hp).isInfix
    | none =>
      rw [h1] at h
      cases h2 : matchYoutubeAlt "youtu.be/".data (c :: cs) with
      | some w =>
        right
        have hp := matchYoutubeAlt_prefix _ _ _ h2
        have hl : "youtu.be".data <+: "youtu.be/".data := ⟨"/".data, rfl⟩
        exact (hl.trans hp).isInfix
      | none =>
        rw [h2] at h
        rcases ih h with hi | hi
        · exact Or.inl (List.infix_cons hi)
        · exact Or.inr (List.infix_cons hi)

theorem renderBlock_video (b : Block) (video : VideoPayload)
    (hb : b.type = .val "video") (hv : b.video = .val video) :
    renderBlock b
      = .ok (if truthyStr (pickUrl video.file video.external) = true then
          renderVideoUrl (toStr (pickUrl video.file video.external)) (captionHtml video.caption)
        else "") := by
  simp only [renderBlock, typeIs, hb, renderVideo, hv, getObj, bind, Except.bind, pure,
    Except.pure]
  simp
  split <;> rfl

theorem pickUrl_of_source (file external : JsOpt UrlObj) (u : String)
    (hsrc : file = .val { url := .val u }
      ∨ (truthyObj file = false ∧ external = .val { url := .val u })) :
    pickUrl file external = .val u := by
  rcases hsrc with h | ⟨hf, he⟩
  · rw [h]; rfl
  · cases file with
    | val f => simp [truthyObj] at hf
    | undefined => rw [he]; rfl
    | null => rw [he]; rfl

/-- C13: for every video block with a non-empty source URL `u`, hosted
(`video.file.url`) or external (`video.external.url` with no `video.file`): if
the pattern `youtube.com/watch?v=` or `youtu.be/` followed by a non-empty run
of characters other than `&`, newline, `?`, `#` matches with captured id `v`,
then `u` contains `youtube.com` or `youtu.be` and the output is the player
whose iframe src is `https://www.youtube.com/embed/v`; in every other case
(no match, or neither text in `u`) the output is the native `<video>` whose
`<source src>` is `u` itself. A video block whose source URL is missing or
empty renders the empty string. -/
theorem C13_video_player_or_native (b : Block) (video : VideoPayload)
    (hb : b.type = .val "video") (hv : b.video = .val video) :
    (∀ u : String,
        (video.file = .val { url := .val u }
          ∨ (truthyObj video.file = false ∧ video.external = .val { url := .val u })) →
        u ≠ "" →
        (∀ v, matchYoutubeId u.data = some v →
            (jsIncludes u "youtube.com" = true ∨ jsIncludes u "youtu.be" = true)
              ∧ renderBlock b
                = .ok (videoYoutubeTemplate (String.mk v) (captionHtml video.caption)))
          ∧ ((matchYoutubeId u.data = none
                ∨ (jsIncludes u "youtube.com" = false ∧ jsIncludes u "youtu.be" = false)) →
              renderBlock b = .ok (videoNativeTemplate u (captionHtml video.caption))))
      ∧ (truthyStr (pickUrl video.file video.external) = false → renderBlock b = .ok "")
      ∧ (truthyObj video.file = false → truthyObj video.external = false →
          renderBlock b = .ok "")
      ∧ (∀ videoUrl caption : String, videoNativeTemplate videoUrl caption
          = "\n            <figure class=\"my-6\">\n              <video controls class=\"w-full rounded-lg shadow-md\">\n                <source src=\""
            ++ videoUrl
            ++ "\" type=\"video/mp4\">\n                Browser Anda tidak mendukung video.\n              </video>\n              "
            ++ figcaption caption ++ "\n            </figure>\n          ")
      ∧ (∀ videoId caption : String, ∃ head tail,
          videoYoutubeTemplate videoId caption
            = head ++ "<iframe src=\"https://www.youtube.com/embed/" ++ videoId ++ "\"" ++ tail) := by
  rw [renderBlock_video b video hb hv]
  refine ⟨?_, ?_, ?_, ?_, ?_⟩
  · intro u hsrc hu
    have hp := pickUrl_of_source _ _ u hsrc
    have ht : truthyStr (JsOpt.val u) = true := by simp [truthyStr, hu]
    rw [hp, if_pos ht]
    simp only [toStr]
    constructor
    · intro v hm
      have hinc := matchYoutubeId_includes _ _ hm
      have hor : jsIncludes u "youtube.com" = true ∨ jsIncludes u "youtu.be" = true := by
        rcases hinc with h | h
        · exact Or.inl ((jsIncludes_iff_contains _ _).2 h)
        · exact Or.inr ((jsIncludes_iff_contains _ _).2 h)
      refine ⟨hor, ?_⟩
      have hc : (jsIncludes u "youtube.com" || jsIncludes u "youtu.be") = true := by
        rcases hor with h | h <;> simp [h]
      simp only [renderVideoUrl, hc, if_true, hm]
    · intro hcase
      rcases hcase with hm | ⟨h1, h2⟩
      · simp only [renderVideoUrl, hm]
        split <;> rfl
      · simp [renderVideoUrl, h1, h2]
  · intro hf
    simp [hf]
  · intro hf he
    have : pickUrl video.file video.external = .val "" := by
      cases hfile : video.file with
      | val f => simp [truthyObj, hfile] at hf
      | undefined =>
        cases hext : video.external with
        | val e => simp [truthyObj, hext] at he
        | undefined => rfl
        | null => rfl
      | null =>
        cases hext : video.external with
        | val e => simp [truthyObj, hext] at he
        | undefined => rfl
        | null => rfl
    rw [this]
    rfl
  · intro videoUrl caption
    rfl
  · intro videoId caption
    refine ⟨"\n                <figure class=\"my-6\">\n                  <div class=\"relative pb-[56.25%] h-0 overflow-hidden rounded-lg\">\n                    ",
      " \n                            class=\"absolute top-0 left-0 w-full h-full\" \n                            frameborder=\"0\" \n                            allowfullscreen></iframe>\n                  </div>\n                  "
        ++ figcaption caption ++ "\n                </figure>\n              ", ?_⟩
    have h1 : "\n                <figure class=\"my-6\">\n                  <div class=\"relative pb-[56.25%] h-0 overflow-hidden rounded-lg\">\n                    <iframe src=\"https://www.youtube.com/embed/"
        = "\n                <figure class=\"my-6\">\n                  <div class=\"relative pb-[56.25%] h-0 overflow-hidden rounded-lg\">\n                    "
          ++ "<iframe src=\"https://www.youtube.com/embed/" := by
      decide
    have h2 : "\" \n                            class=\"absolute top-0 left-0 w-full h-full\" \n                            frameborder=\"0\" \n                            allowfullscreen></iframe>\n                  </div>\n                  "
        = "\"" ++ " \n                            class=\"absolute top-0 left-0 w-full h-full\" \n                            frameborder=\"0\" \n                            allowfullscreen></iframe>\n                  </div>\n                  " := by
      decide
    unfold videoYoutubeTemplate
    rw [h1, h2]
    simp only [String.append_assoc]


/-- Witness of C13: the external video `https://youtu.be/xyz?t=1` embeds the
player of `xyz`. -/
theorem C13_video_player_or_native_witness :
    renderBlock (videoBlock { external := .val { url := .val "https://youtu.be/xyz?t=1" }, file := .undefined, caption := .val [] })
      = .ok (videoYoutubeTemplate "xyz" "") :=
  ((((C13_video_player_or_native
      (videoBlock { external := .val { url := .val "https://youtu.be/xyz?t=1" }, file := .undefined, caption := .val [] })
      { external := .val { url := .val "https://youtu.be/xyz?t=1" }, file := .undefined, caption := .val [] } rfl rfl).1
    "https://youtu.be/xyz?t=1" (Or.inr ⟨rfl, rfl⟩) (by decide)).1 "xyz".data (by decide)).2).trans
    rfl

/-! ## C14-C15: image and file blocks -/

theorem renderBlock_image (b : Block) (hb : b.type = .val "image") :
    renderBlock b = renderImageFirst b := by
  have h : typeIs b "image" = true := by simp [typeIs, hb]
  rw [renderBlock, if_pos h]

/-- C14, the code at the failing inputs: every image block is rendered by the
first image branch. An image block with no source URL and an empty caption
renders a container with `<img src="undefined"`, not the empty string, and no
rendering of an image block is ever empty; an image block with a source and a
bold caption renders the `<div>` of the first branch with the caption's plain
text, without the formatted caption and without the fallback element. The
second image branch, on the same blocks, gives the empty string and the
`<figure>` with the formatted caption and the fallback. -/
theorem C14_image_rendered_by_first_branch :
    renderBlock (imageBlock { external := .undefined, file := .undefined, caption := .val [] })
        = .ok (imageFirstTemplate "undefined" "")
      ∧ imageFirstTemplate "undefined" ""
        = "\n    <div class=\"my-6\">\n      <img src=\"undefined\" alt=\"\" class=\"rounded-xl mx-auto\" />\n      \n    </div>\n  "
      ∧ renderImageSecond
          (imageBlock { external := .undefined, file := .undefined, caption := .val [] })
        = .ok ""
      ∧ renderBlock (imageBlock { external := .val { url := .val "" }, file := .undefined, caption := .val [] })
        = .ok (imageFirstTemplate "undefined" "")
      ∧ renderBlock (imageBlock { external := .val { url := .val "https://x/y.png" }, file := .undefined, caption := .val [mkSpan "cap" none true false false false false] })
        = .ok (imageFirstTemplate "https://x/y.png" "cap")
      ∧ renderImageSecond (imageBlock { external := .val { url := .val "https://x/y.png" }, file := .undefined, caption := .val [mkSpan "cap" none true false false false false] })
        = .ok (imageSecondTemplate "https://x/y.png" "<strong>cap</strong>")
      ∧ (∀ (b : Block) (s : String),
          b.type = .val "image" → renderBlock b = .ok s → s ≠ "") := by
  refine ⟨rfl, by decide, rfl, rfl, rfl, rfl, ?_⟩
  intro b s hb h
  rw [renderBlock_image b hb] at h
  exact visible_ne_empty s (renderImageFirst_visible b s h)

theorem renderBlock_file (b : Block) (file : FilePayload)
    (hb : b.type = .val "file") (hf : b.file = .val file) :
    renderBlock b
      = .ok (if truthyStr (pickUrl file.file file.external) = true then
          fileTemplate (toStr (pickUrl file.file file.external)) (pickFileName file)
        else "") := by
  simp only [renderBlock, typeIs, hb, renderFile, hf, getObj, bind, Except.bind, pure,
    Except.pure]
  simp
  split <;> rfl

theorem pickUrl_of_absent (file external : JsOpt UrlObj)
    (hf : truthyObj file = false) (he : truthyObj external = false) :
    pickUrl file external = .val "" := by
  cases file with
  | val f => simp [truthyObj] at hf
  | undefined =>
    cases external with
    | val e => simp [truthyObj] at he
    | undefined => rfl
    | null => rfl
  | null =>
    cases external with
    | val e => simp [truthyObj] at he
    | undefined => rfl
    | null => rfl

/-- C15: for every file block with a `file` payload: a hosted file with a
non-empty URL renders the download link to that URL labelled with the display
name when that is present and non-empty, else with `File`; an external file
with a non-empty URL renders the link labelled with the display name when
present and non-empty, else with `File External`; a file block with neither a
hosted nor an external source, or whose URL is missing or empty, renders the
empty string. -/
theorem C15_file_download_link (b : Block) (file : FilePayload)
    (hb : b.type = .val "file") (hf : b.file = .val file) :
    (∀ u label : String,
        file.file = .val { url := .val u } → u ≠ "" →
        ((file.name = .val label ∧ label ≠ "")
          ∨ (truthyStr file.name = false ∧ label = "File")) →
        renderBlock b = .ok (fileTemplate u label))
      ∧ (∀ u label : String,
        truthyObj file.file = false → file.external = .val { url := .val u } → u ≠ "" →
        ((file.name = .val label ∧ label ≠ "")
          ∨ (truthyStr file.name = false ∧ label = "File External")) →
        renderBlock b = .ok (fileTemplate u label))
      ∧ (truthyObj file.file = false → truthyObj file.external = false →
          renderBlock b = .ok "")
      ∧ (truthyStr (pickUrl file.file file.external) = false → renderBlock b = .ok "")
      ∧ (∀ fileUrl fileName : String, ∃ head mid tail,
          fileTemplate fileUrl fileName
            = head ++ "<a href=\"" ++ fileUrl ++ "\"" ++ mid ++ fileName ++ tail) := by
  rw [renderBlock_file b file hb hf]
  refine ⟨?_, ?_, ?_, ?_, ?_⟩
  · intro u label hfile hu hlabel
    have hp : pickUrl file.file file.external = .val u := by rw [hfile]; rfl
    have ht : truthyStr (JsOpt.val u) = true := by simp [truthyStr, hu]
    have hn : pickFileName file = label := by
      rcases hlabel with ⟨hname, hne⟩ | ⟨hname, rfl⟩
      · simp [pickFileName, hfile, hname, truthyStr, hne, toStr]
      · simp [pickFileName, hfile, hname]
    rw [hp, if_pos ht, hn]
    rfl
  · intro u label hfile hext hu hlabel
    have hp : pickUrl file.file file.external = .val u :=
      pickUrl_of_source _ _ u (Or.inr ⟨hfile, hext⟩)
    have ht : truthyStr (JsOpt.val u) = true := by simp [truthyStr, hu]
    have hn : pickFileName file = label := by
      cases hff : file.file with
      | val f => simp [truthyObj, hff] at hfile
      | undefined =>
        rcases hlabel with ⟨hname, hne⟩ | ⟨hname, rfl⟩
        · simp [pickFileName, hff, hext, hname, truthyStr, hne, toStr]
        · simp [pickFileName, hff, hext, hname]
      | null =>
        rcases hlabel with ⟨hname, hne⟩ | ⟨hname, rfl⟩
        · simp [pickFileName, hff, hext, hname, truthyStr, hne, toStr]
        · simp [pickFileName, hff, hext, hname]
    rw [hp, if_pos ht, hn]
    rfl
  · intro h1 h2
    rw [pickUrl_of_absent _ _ h1 h2]
    rfl
  · intro h
    simp [h]
  · intro fileUrl fileName
    refine ⟨"\n            <div class=\"my-4 p-4 border border-gray-300 rounded-lg bg-gray-50\">\n              ",
      " target=\"_blank\" rel=\"noopener noreferrer\" \n                 class=\"flex items-center text-blue-600 hover:text-blue-800\">\n                <svg class=\"w-5 h-5 mr-2\" fill=\"currentColor\" viewBox=\"0 0 20 20\">\n                  <path d=\"M4 4a2 2 0 00-2 2v8a2 2 0 002 2h12a2 2 0 002-2V6a2 2 0 00-2-2H4zm2 6a1 1 0 011-1h6a1 1 0 110 2H7a1 1 0 01-1-1zm1 3a1 1 0 100 2h6a1 1 0 100-2H7z\"/>\n                </svg>\n                \u00f0\u0178\u201c\u017d ",
      "\n              </a>\n            </div>\n          ", ?_⟩
    have h1 : "\n            <div class=\"my-4 p-4 border border-gray-300 rounded-lg bg-gray-50\">\n              <a href=\""
        = "\n            <div class=\"my-4 p-4 border border-gray-300 rounded-lg bg-gray-50\">\n              " ++ "<a href=\"" := by
      decide
    have h2 : "\" target=\"_blank\" rel=\"noopener noreferrer\" \n                 class=\"flex items-center text-blue-600 hover:text-blue-800\">\n                <svg class=\"w-5 h-5 mr-2\" fill=\"currentColor\" viewBox=\"0 0 20 20\">\n                  <path d=\"M4 4a2 2 0 00-2 2v8a2 2 0 002 2h12a2 2 0 002-2V6a2 2 0 00-2-2H4zm2 6a1 1 0 011-1h6a1 1 0 110 2H7a1 1 0 01-1-1zm1 3a1 1 0 100 2h6a1 1 0 100-2H7z\"/>\n                </svg>\n                \u00f0\u0178\u201c\u017d "
        = "\"" ++ " target=\"_blank\" rel=\"noopener noreferrer\" \n                 class=\"flex items-center text-blue-600 hover:text-blue-800\">\n                <svg class=\"w-5 h-5 mr-2\" fill=\"currentColor\" viewBox=\"0 0 20 20\">\n                  <path d=\"M4 4a2 2 0 00-2 2v8a2 2 0 002 2h12a2 2 0 002-2V6a2 2 0 00-2-2H4zm2 6a1 1 0 011-1h6a1 1 0 110 2H7a1 1 0 01-1-1zm1 3a1 1 0 100 2h6a1 1 0 100-2H7z\"/>\n                </svg>\n                \u00f0\u0178\u201c\u017d " := by
      decide
    unfold fileTemplate
    rw [h1, h2]
    simp only [String.append_assoc]

/-- Witness of C15: a hosted file with no name is labelled `File`, an external
file with the name `notes.pdf` is labelled with it. -/
theorem C15_file_download_link_witness :
    renderBlock (fileBlock { external := .undefined, file := .val { url := .val "https://h/f.pdf" }, name := .undefined })
        = .ok (fileTemplate "https://h/f.pdf" "File")
      ∧ renderBlock (fileBlock { external := .val { url := .val "https://x/n.pdf" }, file := .undefined, name := .val "notes.pdf" })
        = .ok (fileTemplate "https://x/n.pdf" "notes.pdf") :=
  ⟨(C15_file_download_link _ { external := .undefined, file := .val { url := .val "https://h/f.pdf" }, name := .undefined } rfl rfl).1
      "https://h/f.pdf" "File" rfl (by decide) (Or.inr ⟨rfl, rfl⟩),
    (C15_file_download_link _ { external := .val { url := .val "https://x/n.pdf" }, file := .undefined, name := .val "notes.pdf" } rfl rfl).2.1
      "https://x/n.pdf" "notes.pdf" rfl rfl (by decide) (Or.inl ⟨rfl, by decide⟩)⟩

/-! ## C16-C17: text-bearing blocks and code blocks -/

theorem append_ne_empty (a b c : String) (ha : a ≠ "") : a ++ b ++ c ≠ "" := by
  intro h
  have hl : (a ++ b ++ c).length = 0 := by rw [h]; rfl
  rw [String.length_append, String.length_append] at hl
  have ha0 : a.length = 0 := by omega
  apply ha
  apply String.ext
  exact List.length_eq_zero.1 ha0

/-- The output of a text-bearing branch: the wrapped formatted text, or the
empty string when the formatted text is empty. -/
theorem textOutput_empty_iff (openTag closeTag text : String) (ho : openTag ≠ "") :
    (if text ≠ "" then openTag ++ text ++ closeTag else "") = "" ↔ text = "" := by
  constructor
  · intro h
    by_contra hne
    rw [if_pos hne] at h
    exact append_ne_empty _ _ _ ho h
  · intro h
    simp [h]

/-- C16: for every paragraph, heading_1, heading_2, heading_3 and quote block
with a `rich_text` array `r`, the output is the kind's opening tag, then
`processRichText(r)`, then the closing tag when the formatted text is not
empty, and the empty string when it is; so the output is empty if and only if
the formatted text is empty, and no empty wrapper element is emitted. -/
theorem C16_text_block_wrapped_or_empty (r : List RichText) :
    (∀ b : Block, b.type = .val "paragraph" → b.paragraph = .val { rich_text := .val r } →
        renderBlock b = .ok (if processRichText (.val r) ≠ "" then
            "<p class=\"mb-4\">" ++ processRichText (.val r) ++ "</p>" else "")
          ∧ (renderBlock b = .ok "" ↔ processRichText (.val r) = ""))
      ∧ (∀ b : Block, b.type = .val "heading_1" → b.heading_1 = .val { rich_text := .val r } →
        renderBlock b = .ok (if processRichText (.val r) ≠ "" then
            "<h1 class=\"text-3xl font-bold mb-4 mt-6\">" ++ processRichText (.val r) ++ "</h1>"
            else "")
          ∧ (renderBlock b = .ok "" ↔ processRichText (.val r) = ""))
      ∧ (∀ b : Block, b.type = .val "heading_2" → b.heading_2 = .val { rich_text := .val r } →
        renderBlock b = .ok (if processRichText (.val r) ≠ "" then
            "<h2 class=\"text-2xl font-semibold mb-3 mt-5\">" ++ processRichText (.val r)
              ++ "</h2>"
            else "")
          ∧ (renderBlock b = .ok "" ↔ processRichText (.val r) = ""))
      ∧ (∀ b : Block, b.type = .val "heading_3" → b.heading_3 = .val { rich_text := .val r } →
        renderBlock b = .ok (if processRichText (.val r) ≠ "" then
            "<h3 class=\"text-xl font-medium mb-2 mt-4\">" ++ processRichText (.val r) ++ "</h3>"
            else "")
          ∧ (renderBlock b = .ok "" ↔ processRichText (.val r) = ""))
      ∧ (∀ b : Block, b.type = .val "quote" → b.quote = .val { rich_text := .val r } →
        renderBlock b = .ok (if processRichText (.val r) ≠ "" then
            "<blockquote class=\"border-l-4 border-gray-300 pl-4 italic my-4 text-gray-700\">"
              ++ processRichText (.val r) ++ "</blockquote>"
            else "")
          ∧ (renderBlock b = .ok "" ↔ processRichText (.val r) = "")) := by
  refine ⟨?_, ?_, ?_, ?_, ?_⟩
  · intro b hb hp
    have h : renderBlock b = .ok (if processRichText (.val r) ≠ "" then
        "<p class=\"mb-4\">" ++ processRichText (.val r) ++ "</p>" else "") := by
      simp [renderBlock, typeIs, hb, hp, optChain, truthyObj, renderText, getObj, bind,
        Except.bind, pure, Except.pure]
    refine ⟨h, ?_⟩
    rw [h, Except.ok.injEq]
    exact textOutput_empty_iff _ _ _ (by decide)
  · intro b hb hp
    have h : renderBlock b = .ok (if processRichText (.val r) ≠ "" then
        "<h1 class=\"text-3xl font-bold mb-4 mt-6\">" ++ processRichText (.val r) ++ "</h1>"
        else "") := by
      simp [renderBlock, typeIs, hb, hp, optChain, truthyObj, renderText, getObj, bind,
        Except.bind, pure, Except.pure]
    refine ⟨h, ?_⟩
    rw [h, Except.ok.injEq]
    exact textOutput_empty_iff _ _ _ (by decide)
  · intro b hb hp
    have h : renderBlock b = .ok (if processRichText (.val r) ≠ "" then
        "<h2 class=\"text-2xl font-semibold mb-3 mt-5\">" ++ processRichText (.val r) ++ "</h2>"
        else "") := by
      simp [renderBlock, typeIs, hb, hp, optChain, truthyObj, renderText, getObj, bind,
        Except.bind, pure, Except.pure]
    refine ⟨h, ?_⟩
    rw [h, Except.ok.injEq]
    exact textOutput_empty_iff _ _ _ (by decide)
  · intro b hb hp
    have h : renderBlock b = .ok (if processRichText (.val r) ≠ "" then
        "<h3 class=\"text-xl font-medium mb-2 mt-4\">" ++ processRichText (.val r) ++ "</h3>"
        else "") := by
      simp [renderBlock, typeIs, hb, hp, optChain, truthyObj, renderText, getObj, bind,
        Except.bind, pure, Except.pure]
    refine ⟨h, ?_⟩
    rw [h, Except.ok.injEq]
    exact textOutput_empty_iff _ _ _ (by decide)
  · intro b hb hp
    have h : renderBlock b = .ok (if processRichText (.val r) ≠ "" then
        "<blockquote class=\"border-l-4 border-gray-300 pl-4 italic my-4 text-gray-700\">"
          ++ processRichText (.val r) ++ "</blockquote>"
        else "") := by
      simp [renderBlock, typeIs, hb, hp, optChain, truthyObj, renderText, getObj, bind,
        Except.bind, pure, Except.pure]
    refine ⟨h, ?_⟩
    rw [h, Except.ok.injEq]
    exact textOutput_empty_iff _ _ _ (by decide)

/-- Witness of C16: a paragraph with the bold text `x`, and a quote with an
empty `rich_text`. -/
theorem C16_text_block_wrapped_or_empty_witness :
    renderBlock { bareBlock "paragraph" with paragraph := .val { rich_text := .val [mkSpan "x" none true false false false false] } }
        = .ok "<p class=\"mb-4\"><strong>x</strong></p>"
      ∧ renderBlock { bareBlock "quote" with quote := .val { rich_text := .val [] } } = .ok "" :=
  ⟨(((C16_text_block_wrapped_or_empty
        [mkSpan "x" none true false false false false]).1 _ rfl rfl).1).trans rfl,
    (((C16_text_block_wrapped_or_empty []).2.2.2.2 _ rfl rfl).2).2 rfl⟩

theorem renderBlock_code (b : Block) (spans : List RichText) (language : JsOpt String)
    (hb : b.type = .val "code")
    (hc : b.code = .val { rich_text := .val spans, language := language }) :
    renderBlock b
      = .ok (if (spans.map (fun rt => orEmpty rt.plain_text)).foldr (fun c acc => c ++ acc) ""
            ≠ "" then
          "<pre class=\"bg-gray-900 text-gray-100 p-4 rounded-lg overflow-x-auto my-4\"><code class=\"language-"
            ++ orEmpty language ++ "\">"
            ++ (spans.map (fun rt => orEmpty rt.plain_text)).foldr (fun c acc => c ++ acc) ""
            ++ "</code></pre>"
        else "") := by
  simp [renderBlock, typeIs, hb, hc, optChain, truthyObj, renderCode, getObj, bind,
    Except.bind, pure, Except.pure, jsJoin_empty_eq_foldr]

/-- C17: a code block's output depends only on its spans' plain texts and its
language. It is
`<pre class="..."><code class="language-L">T</code></pre>` with `T` the
concatenation of the plain texts and `L` the language (empty when missing),
or the empty string when `T` is empty; so two code blocks with the same
language and the same sequence of plain texts render alike, whatever their
links and annotation flags. -/
theorem C17_code_block_ignores_formatting :
    (∀ (b : Block) (spans : List RichText) (language : JsOpt String),
        b.type = .val "code" →
        b.code = .val { rich_text := .val spans, language := language } →
        renderBlock b
          = .ok (if (spans.map (fun rt => orEmpty rt.plain_text)).foldr
                (fun c acc => c ++ acc) "" ≠ "" then
              "<pre class=\"bg-gray-900 text-gray-100 p-4 rounded-lg overflow-x-auto my-4\"><code class=\"language-"
                ++ orEmpty language ++ "\">"
                ++ (spans.map (fun rt => orEmpty rt.plain_text)).foldr
                  (fun c acc => c ++ acc) ""
                ++ "</code></pre>"
            else ""))
      ∧ (∀ (b₁ b₂ : Block) (spans₁ spans₂ : List RichText) (language : JsOpt String),
        b₁.type = .val "code" → b₂.type = .val "code" →
        b₁.code = .val { rich_text := .val spans₁, language := language } →
        b₂.code = .val { rich_text := .val spans₂, language := language } →
        spans₁.map (fun rt => orEmpty rt.plain_text)
          = spans₂.map (fun rt => orEmpty rt.plain_text) →
        renderBlock b₁ = renderBlock b₂)
      ∧ renderBlock (codeBlock [mkSpan "a<b" (some "https://l") true true false false true, mkSpan "c" none false false false false false] (.val "js"))
        = .ok "<pre class=\"bg-gray-900 text-gray-100 p-4 rounded-lg overflow-x-auto my-4\"><code class=\"language-js\">a<bc</code></pre>" := by
  refine ⟨renderBlock_code, ?_, rfl⟩
  intro b₁ b₂ spans₁ spans₂ language h1 h2 hc1 hc2 hs
  rw [renderBlock_code b₁ spans₁ language h1 hc1, renderBlock_code b₂ spans₂ language h2 hc2, hs]

/-- Witness of C17: the same plain texts with and without formatting. -/
theorem C17_code_block_ignores_formatting_witness :
    renderBlock (codeBlock [mkSpan "x" (some "https://l") true true true true true] (.val "js"))
      = renderBlock (codeBlock [mkSpan "x" none false false false false false] (.val "js")) :=
  C17_code_block_ignores_formatting.2.1 _ _ _ _ _ rfl rfl rfl rfl rfl

/-! ## C18-C19: the page-detail handler -/

theorem length_le_jsLength (s : String) : s.length ≤ jsLength s := by
  have h : ∀ l : List Char, l.length ≤ (l.map utf16Units).sum := by
    intro l
    induction l with
    | nil => simp
    | cons c cs ih =>
      simp only [List.length_cons, List.map_cons, List.sum_cons]
      have hc : 1 ≤ utf16Units c := by
        unfold utf16Units
        split <;> omega
      omega
  exact h s.data

theorem invalidPageId_of_long (id : String) (h : 32 ≤ jsLength id) :
    invalidPageId (.val id) = false := by
  have hne : id ≠ "" := by
    intro he
    subst he
    have : jsLength "" = 0 := rfl
    omega
  simp [invalidPageId, truthyStr, hne, toStr]
  omega

theorem catchBlock_html (pageId : JsOpt String) (error : Thrown) :
    (catchBlock pageId error).body.html = .undefined
      ∧ (catchBlock pageId error).status ≠ 200 := by
  unfold catchBlock
  split
  · exact ⟨rfl, by simp⟩
  · split
    · exact ⟨rfl, by simp⟩
    · exact ⟨rfl, by simp⟩

/-- C18: for every page identifier that is absent (`undefined`, `null` or the
empty string) or shorter than 32 UTF-16 code units, the handler answers HTTP
400 with the body `{error, pageId}` and makes no upstream call, so the outcome
is the same whatever the upstream would have returned; the 5-character
identifier `abcde` is such a case. For every identifier of 32 code units or
more (in particular of 32 characters or more) the validation does not reject:
the upstream is called once with the identifier and the status is not 400. -/
theorem C18_short_page_id_rejected_before_upstream :
    (∀ (message : String) (list : String → Except Thrown (List Block)) (pageId : JsOpt String),
        (truthyStr pageId = false ∨ jsLength (toStr pageId) < 32) →
        pageDetail message list pageId
          = { response :=
                { status := 400
                  body := { error := .val "ID halaman tidak valid", pageId := pageId,
                            details := .undefined, html := .undefined } }
              upstreamCalls := [] })
      ∧ (∀ (message message' : String) (list list' : String → Except Thrown (List Block))
          (pageId : JsOpt String),
        (truthyStr pageId = false ∨ jsLength (toStr pageId) < 32) →
        pageDetail message list pageId = pageDetail message' list' pageId)
      ∧ (∀ (message : String) (list : String → Except Thrown (List Block)),
        (pageDetail message list (.val "abcde")).response.status = 400
          ∧ (pageDetail message list (.val "abcde")).upstreamCalls = [])
      ∧ (∀ (message : String) (list : String → Except Thrown (List Block)) (id : String),
        32 ≤ jsLength id →
        invalidPageId (.val id) = false
          ∧ (pageDetail message list (.val id)).upstreamCalls = [id]
          ∧ (pageDetail message list (.val id)).response.status ≠ 400)
      ∧ (∀ id : String, 32 ≤ id.length → invalidPageId (.val id) = false) := by
  have hrej : ∀ (message : String) (list : String → Except Thrown (List Block))
      (pageId : JsOpt String),
      (truthyStr pageId = false ∨ jsLength (toStr pageId) < 32) →
      pageDetail message list pageId
        = { response :=
              { status := 400
                body := { error := .val "ID halaman tidak valid", pageId := pageId,
                          details := .undefined, html := .undefined } }
            upstreamCalls := [] } := by
    intro message list pageId h
    have hinv : invalidPageId pageId = true := by
      rcases h with h | h
      · simp [invalidPageId, h]
      · simp [invalidPageId, h]
    rw [pageDetail, if_pos hinv]
  refine ⟨hrej, ?_, ?_, ?_, ?_⟩
  · intro message message' list list' pageId h
    rw [hrej message list pageId h, hrej message' list' pageId h]
  · intro message list
    rw [hrej message list (.val "abcde") (Or.inr (by decide))]
    exact ⟨rfl, rfl⟩
  · intro message list id hid
    have hv := invalidPageId_of_long id hid
    have hv' : ¬ (invalidPageId (.val id) = true) := by simp [hv]
    refine ⟨hv, ?_, ?_⟩
    · rw [pageDetail, if_neg hv']
      simp only [toStr]
      cases hl : list id with
      | error e => rfl
      | ok results =>
        simp only []
        cases ha : assembleHtml results with
        | error e => rfl
        | ok html => rfl
    · rw [pageDetail, if_neg hv']
      simp only [toStr]
      cases hl : list id with
      | error e =>
        intro h4
        simp only [catchBlock] at h4
        split at h4
        · simp at h4
        · split at h4 <;> simp at h4
      | ok results =>
        simp only []
        cases ha : assembleHtml results with
        | error e =>
          intro h4
          simp only [catchBlock] at h4
          split at h4
          · simp at h4
          · split at h4 <;> simp at h4
        | ok html => simp
  · intro id hid
    exact invalidPageId_of_long id (Nat.le_trans hid (length_le_jsLength id))

/-- Witness of C18: a 32-character identifier passes the validation and is
sent upstream. -/
theorem C18_short_page_id_rejected_before_upstream_witness :
    (pageDetail "m" (fun _ => .ok []) (.val "0123456789abcdef0123456789abcdef")).upstreamCalls
        = ["0123456789abcdef0123456789abcdef"]
      ∧ (pageDetail "m" (fun _ => .ok []) (.val "abcde"))
        = (pageDetail "n" (fun _ => .error { code := .undefined, message := .undefined })
            (.val "abcde")) :=
  ⟨(C18_short_page_id_rejected_before_upstream.2.2.2.1 "m" (fun _ => .ok [])
      "0123456789abcdef0123456789abcdef" (by decide)).2.1,
    C18_short_page_id_rejected_before_upstream.2.1 "m" "n" (fun _ => .ok [])
      (fun _ => .error { code := .undefined, message := .undefined }) (.val "abcde")
      (Or.inr (by decide))⟩

/-- C19: for every page identifier of valid length, a failure of the
page-detail request is mapped by its cause. An upstream error with code
`object_not_found` gives HTTP 404 with `{error, pageId}`, one with code
`unauthorized` gives HTTP 401 with `{error, pageId}`, every other upstream
error gives HTTP 500 with `{error, details, pageId}` where `details` is the
error's message, and an exception of the rendering gives HTTP 500 likewise;
`pageId` is the requested identifier. No response other than the successful
one (status 200) carries an `html` field. -/
theorem C19_failure_mapped_by_cause (message : String)
    (list : String → Except Thrown (List Block)) (id : String) (hid : 32 ≤ jsLength id) :
    (∀ e : Thrown, list id = .error e → e.code = .val "object_not_found" →
        (pageDetail message list (.val id)).response
          = { status := 404
              body := { error := .val "Halaman tidak ditemukan", pageId := .val id,
                        details := .undefined, html := .undefined } })
      ∧ (∀ e : Thrown, list id = .error e → e.code = .val "unauthorized" →
        (pageDetail message list (.val id)).response
          = { status := 401
              body := { error := .val "Token Notion tidak valid atau tidak memiliki akses ke halaman ini",
                        pageId := .val id, details := .undefined, html := .undefined } })
      ∧ (∀ e : Thrown, list id = .error e → e.code ≠ .val "object_not_found" →
          e.code ≠ .val "unauthorized" →
        (pageDetail message list (.val id)).response
          = { status := 500
              body := { error := .val "Gagal mengambil detail dari Notion", pageId := .val id,
                        details := e.message, html := .undefined } })
      ∧ (∀ (results : List Block) (e : JsError), list id = .ok results →
          assembleHtml results = .error e →
        (pageDetail message list (.val id)).response
          = { status := 500
              body := { error := .val "Gagal mengambil detail dari Notion", pageId := .val id,
                        details := .val message, html := .undefined } })
      ∧ ((pageDetail message list (.val id)).response.status ≠ 200 →
          (pageDetail message list (.val id)).response.body.html = .undefined)
      ∧ (∀ (results : List Block) (html : String), list id = .ok results →
          assembleHtml results = .ok html →
        (pageDetail message list (.val id)).response
          = { status := 200
              body := { html := .val html, error := .undefined, pageId := .undefined,
                        details := .undefined } }) := by
  have hv : ¬ (invalidPageId (.val id) = true) := by
    simp [invalidPageId_of_long id hid]
  refine ⟨?_, ?_, ?_, ?_, ?_, ?_⟩
  · intro e he hc
    rw [pageDetail, if_neg hv]
    simp only [toStr, he, catchBlock, hc, if_true]
  · intro e he hc
    have hne : ¬ (e.code = JsOpt.val "object_not_found") := by
      rw [hc]; decide
    rw [pageDetail, if_neg hv]
    simp only [toStr, he, catchBlock, if_neg hne]
    rw [if_pos hc]
  · intro e he h1 h2
    rw [pageDetail, if_neg hv]
    simp only [toStr, he, catchBlock, if_neg h1, if_neg h2]
  · intro results e he ha
    rw [pageDetail, if_neg hv]
    simp only [toStr, he, ha]
    cases e
    rfl
  · intro hs
    rw [pageDetail, if_neg hv] at hs ⊢
    simp only [toStr] at hs ⊢
    cases hl : list id with
    | error e =>
      simp only [hl]
      exact (catchBlock_html _ _).1
    | ok results =>
      cases ha : assembleHtml results with
      | error e =>
        simp only [hl, ha]
        exact (catchBlock_html _ _).1
      | ok html =>
        simp only [hl, ha] at hs
        exact absurd rfl hs
  · intro results html he ha
    rw [pageDetail, if_neg hv]
    simp only [toStr, he, ha]

/-- Witness of C19: the upstream reports `object_not_found` for a
32-character identifier. -/
theorem C19_failure_mapped_by_cause_witness :
    (pageDetail "m"
        (fun _ => .error { code := .val "object_not_found", message := .val "not found" })
        (.val "0123456789abcdef0123456789abcdef")).response
      = { status := 404
          body := { error := .val "Halaman tidak ditemukan",
                    pageId := .val "0123456789abcdef0123456789abcdef",
                    details := .undefined, html := .undefined } } :=
  (C19_failure_mapped_by_cause "m"
      (fun _ => .error { code := .val "object_not_found", message := .val "not found" })
      "0123456789abcdef0123456789abcdef" (by decide)).1
    { code := .val "object_not_found", message := .val "not found" } rfl rfl

/-! ## C20: the second image branch -/

/-- C20: the second image branch of the block renderer is unreachable. For
every block, the renderer with that branch deleted gives the same result, the
same string or the same exception, as the original: a block of type `image`
is decided by the first image branch, and a block of another type never
enters an image branch. -/
theorem C20_second_image_branch_unreachable (b : Block) :
    renderBlock b = renderBlockWithoutSecondImage b
      ∧ (b.type = .val "image" → renderBlock b = renderImageFirst b) := by
  constructor
  · by_cases h : typeIs b "image" = true
    · rw [renderBlock, renderBlockWithoutSecondImage, if_pos h, if_pos h]
    · rw [renderBlock, renderBlockWithoutSecondImage]
      simp only [if_neg h]
  · intro hb
    exact renderBlock_image b hb

end Notion
